import Mathlib

/-!
# dmrshark: the SMS TX buffer (libs/base/smstxbuf.c)

A shallow embedding of the outbound short-message retry queue.

* The linked list `smstxbuf_first_entry ... smstxbuf_last_entry` is a `List smstxbuf_t`:
  the first entry is the head of the list, the last entry its last element.
* Every function is run as one atomic step (the mutex is not modelled); it returns the
  new queue together with the list of calls it made to its collaborators, in order.
* `time(NULL)` is the argument `now`; a `time_t` is an `Int`.
* `console_log` and `smstxbuf_print_entry` output is not recorded.
-/

namespace Smstxbuf

/-! ## Types declared in headers -/

/-- Modelled from the spec: `dmr_call_type_t` is declared in a header outside `libs/base`;
the data model lists the call types Private, Group and AllCall. `Group` is
`DMR_CALL_TYPE_GROUP`, the only value `smstxbuf.c` names. -/
inductive dmr_call_type_t where
  | Private
  | Group
  | AllCall
  deriving DecidableEq, Repr

/-- Modelled from the spec: `dmr_data_type_t` is declared in a header outside `libs/base`;
the data model lists two encoding kinds, the plain short message
(`DMR_DATA_TYPE_NORMAL_SMS`) and the vendor acknowledged one
(`DMR_DATA_TYPE_MOTOROLA_TMS_SMS`). With these two values the `default:` arm of the
switch in `smstxbuf_process` has no value left to apply to. -/
inductive dmr_data_type_t where
  | NORMAL_SMS
  | MOTOROLA_TMS_SMS
  deriving DecidableEq, Repr

/-- A C string is the list of its bytes; reading stops at the first NUL. -/
abbrev cstring := List Nat

/-- The bytes of a C string before its terminating NUL. -/
def c_str (s : cstring) : cstring := s.takeWhile (fun c => c ≠ 0)

/-- Modelled from the spec: `DMRPACKET_MAX_FRAGMENTSIZE`, the fixed maximum fragment size
of a body, is a constant of a header outside `libs/base`; it is a parameter of the model,
and the `msg` array of an entry has that many bytes (so `sizeof (msg)` is the same
number). -/
structure Consts where
  DMRPACKET_MAX_FRAGMENTSIZE : Nat
  deriving DecidableEq, Repr

/-- Contents of a zeroed array of at least `n` bytes after `strncpy (dst, src, n)`. -/
def strncpy (src : cstring) (n : Nat) : cstring := (c_str src).take n

/-- The test `strncmp (a, b, n) == 0`. -/
def strncmp_eq (a b : cstring) (n : Nat) : Bool :=
  decide ((c_str a).take n = (c_str b).take n)

/-- Modelled from the spec: `aprs_msg_t` is declared in a header outside `libs/base`; it is
the origin data of a relayed message: source callsign, destination callsign and the
acknowledgment token (`ackpart`, empty when no ack reply was requested). -/
structure aprs_msg_t where
  src_callsign : cstring
  dst_callsign : cstring
  ackpart : cstring
  deriving DecidableEq, Repr

/-- Modelled from the spec: `repeater_t` is declared in a header outside `libs/base`; this
is the part of it that `smstxbuf.c` reads through a repeater pointer, its callsign. -/
structure repeater_t where
  callsign : cstring
  deriving DecidableEq, Repr

/-- Modelled from the spec: `smstxbuf_t` is declared in `smstxbuf.h`; the fields are those
`smstxbuf.c` reads and writes, which are the fields of a pending message in the data
model. `repeater` is the pointer value (`none` is NULL), `aprs_msg` the owned copy of the
origin data, counters are natural numbers and times are integers. The `next` pointer is
the list structure. -/
structure smstxbuf_t where
  msg : cstring
  added_at : Int
  delay_before_send_sec : Nat
  data_type : dmr_data_type_t
  call_type : dmr_call_type_t
  dst_id : Nat
  repeater : Option Nat
  ts : Nat
  db_id : Nat
  aprs_msg : Option aprs_msg_t
  send_tries : Nat
  selective_ack_tries : Nat
  waiting_for_tms_ack_started_at : Int
  deriving DecidableEq, Repr

/-- The handle `smsrtbuf_find_entry` returns for a round-trip buffer entry. -/
abbrev smsrtbuf_ref := Nat

/-- Calls made to the collaborators of the buffer. -/
inductive Call where
  /-- The call `dmr_data_send_motorola_tms_sms (broadcast, repeater, ts, calltype, dstid, srcid, msg)`;
  the source id is always `DMRSHARK_DEFAULT_DMR_ID`. -/
  | dmr_data_send_motorola_tms_sms (broadcast : Bool) (repeater : Option Nat) (ts : Nat)
      (calltype : dmr_call_type_t) (dstid : Nat) (msg : cstring)
  /-- The call `dmr_data_send_sms (broadcast, repeater, ts, calltype, dstid, srcid, msg)`. -/
  | dmr_data_send_sms (broadcast : Bool) (repeater : Option Nat) (ts : Nat)
      (calltype : dmr_call_type_t) (dstid : Nat) (msg : cstring)
  /-- The call `remotedb_msgqueue_updateentry (db_id, success)`. -/
  | remotedb_msgqueue_updateentry (db_id : Nat) (success : Bool)
  /-- The call `smsrtbuf_find_entry (dstid, msg)`. -/
  | smsrtbuf_find_entry (dstid : Nat) (msg : cstring)
  /-- The call `smsrtbuf_entry_sent_successfully (entry)`. -/
  | smsrtbuf_entry_sent_successfully (entry : smsrtbuf_ref)
  /-- The call `smsrtbuf_entry_send_unsuccessful (entry)`. -/
  | smsrtbuf_entry_send_unsuccessful (entry : smsrtbuf_ref)
  /-- The call `aprs_add_to_queue_msg (a, b, msg, repeater_callsign)`; the handler passes the
  source callsign of the origin data as `a` and its destination callsign as `b`. -/
  | aprs_add_to_queue_msg (a b msg repeater_callsign : cstring)
  /-- The call `daemon_poll_setmaxtimeout (0)`, the scheduling hint. -/
  | daemon_poll_setmaxtimeout
  deriving DecidableEq, Repr

/-- What the buffer reads from its surroundings during one call. -/
structure Env where
  /-- The value of `config_get_smssendmaxretrycount ()`, a natural number. -/
  smssendmaxretrycount : Nat
  /-- Whether `data_packet_txbuf_get_first_entry ()` is not NULL. -/
  data_packet_txbuf_pending : Bool
  /-- The result of `smsrtbuf_find_entry (dstid, msg)`, `none` for NULL. -/
  smsrtbuf_find : Nat → cstring → Option smsrtbuf_ref

/-- The queue: `smstxbuf_first_entry` is its head, `smstxbuf_last_entry` its last element. -/
abbrev Queue := List smstxbuf_t

/-- The pointer `smstxbuf_first_entry`. -/
def smstxbuf_first_entry (q : Queue) : Option smstxbuf_t := q.head?

/-- The pointer `smstxbuf_last_entry`. -/
def smstxbuf_last_entry (q : Queue) : Option smstxbuf_t := q.getLast?

/-! ## smstxbuf_add -/

/-- The arguments of `smstxbuf_add`; `msg` and `aprs_msg` are pointers (`none` is NULL). -/
structure AddArgs where
  delay_before_send_sec : Nat
  repeater : Option Nat
  ts : Nat
  calltype : dmr_call_type_t
  dstid : Nat
  data_type : dmr_data_type_t
  msg : Option cstring
  db_id : Nat
  aprs_msg : Option aprs_msg_t
  deriving DecidableEq, Repr

/-- The duplicate test of `smstxbuf_add` (lines 88-94) against the last entry; the bound of
`strncmp` is `sizeof (msg)`. -/
def is_duplicate (c : Consts) (last : smstxbuf_t) (a : AddArgs) (msg : cstring) : Bool :=
  decide (last.dst_id = a.dstid) &&
  decide (last.data_type = a.data_type) &&
  decide (last.repeater = a.repeater) &&
  decide (last.ts = a.ts) &&
  decide (last.call_type = a.calltype) &&
  strncmp_eq last.msg msg c.DMRPACKET_MAX_FRAGMENTSIZE

/-- The entry `smstxbuf_add` fills in after `calloc` (lines 106-118); the delay is a
`uint8_t` argument and the id an `unsigned int`. -/
def new_smstxbuf_entry (c : Consts) (now : Int) (a : AddArgs) (msg : cstring) : smstxbuf_t :=
  { msg := strncpy msg c.DMRPACKET_MAX_FRAGMENTSIZE
    added_at := now
    delay_before_send_sec := a.delay_before_send_sec % 256
    data_type := a.data_type
    call_type := a.calltype
    dst_id := a.dstid
    repeater := a.repeater
    ts := a.ts
    db_id := a.db_id % 4294967296
    aprs_msg := a.aprs_msg
    send_tries := 0
    selective_ack_tries := 0
    waiting_for_tms_ack_started_at := 0 }

/-- The function `smstxbuf_add`. `alloc_ok` tells whether `calloc` returns memory. -/
def smstxbuf_add (c : Consts) (alloc_ok : Bool) (now : Int) (a : AddArgs) (q : Queue) :
    Queue × List Call :=
  match a.msg with
  | none => (q, [])
  | some msg =>
    match q.getLast? with
    | some last =>
      if is_duplicate c last a msg then (q, [])
      else if !alloc_ok then (q, [])
      else (q ++ [new_smstxbuf_entry c now a msg], [Call.daemon_poll_setmaxtimeout])
    | none =>
      if !alloc_ok then (q, [])
      else ([new_smstxbuf_entry c now a msg], [Call.daemon_poll_setmaxtimeout])

/-! ## Removal and the outcome handlers -/

/-- The function `smstxbuf_remove_first_entry`. -/
def smstxbuf_remove_first_entry (q : Queue) : Queue :=
  match q with
  | [] => []
  | _ :: nextentry => nextentry

/-- The acknowledgment reply `snprintf` builds from `"ack%s}"` and the token; the buffer
has room for a token that ends within its array. -/
def aprs_ack_msg (ackpart : cstring) : cstring :=
  [97, 99, 107] ++ c_str ackpart ++ [125]

/-- The function `smstxbuf_first_entry_sent_successfully`; `repeater` is the pointer
argument with the repeater it points to (`none` is NULL). -/
def smstxbuf_first_entry_sent_successfully (env : Env) (repeater : Option repeater_t)
    (q : Queue) : Queue × List Call :=
  match q with
  | [] => ([], [])
  | first :: _ =>
    let db := if first.db_id ≠ 0 then [Call.remotedb_msgqueue_updateentry first.db_id true] else []
    let aprs :=
      match first.aprs_msg with
      | none => []
      | some am =>
        if am.ackpart.head? = none ∨ am.ackpart.head? = some 0 then []
        else
          match repeater with
          | none => []
          | some r =>
            if r.callsign.head? = none ∨ r.callsign.head? = some 0 then []
            else [Call.aprs_add_to_queue_msg am.src_callsign am.dst_callsign
                    (aprs_ack_msg am.ackpart) r.callsign]
    let find := [Call.smsrtbuf_find_entry first.dst_id first.msg]
    let rt :=
      match env.smsrtbuf_find first.dst_id first.msg with
      | none => []
      | some r => [Call.smsrtbuf_entry_sent_successfully r]
    (smstxbuf_remove_first_entry q, db ++ aprs ++ find ++ rt)

/-- The function `smstxbuf_first_entry_send_unsuccessful`. -/
def smstxbuf_first_entry_send_unsuccessful (env : Env) (q : Queue) : Queue × List Call :=
  match q with
  | [] => ([], [])
  | first :: _ =>
    let db_id := first.db_id
    let find := [Call.smsrtbuf_find_entry first.dst_id first.msg]
    let rt :=
      match env.smsrtbuf_find first.dst_id first.msg with
      | none => []
      | some r => [Call.smsrtbuf_entry_send_unsuccessful r]
    let q1 := smstxbuf_remove_first_entry q
    let db :=
      if db_id ≠ 0 ∧ (q1.head? = none ∨ (q1.head?.map (fun e => e.db_id)) ≠ some db_id)
      then [Call.remotedb_msgqueue_updateentry db_id false] else []
    (q1, find ++ rt ++ db)

/-- The function `smstxbuf_first_entry_waiting_for_tms_ack_started`. -/
def smstxbuf_first_entry_waiting_for_tms_ack_started (now : Int) (q : Queue) : Queue :=
  match q with
  | [] => []
  | first :: rest => { first with waiting_for_tms_ack_started_at := now } :: rest

/-- The function `smstxbuf_get_first_entry`: a copy of the first entry, or NULL. -/
def smstxbuf_get_first_entry (q : Queue) : Option smstxbuf_t := q.head?

/-! ## smstxbuf_process -/

/-- The switch on the data type in `smstxbuf_process` (lines 304-313): the transmit call
made for the first entry. -/
def send_call (e : smstxbuf_t) : Call :=
  match e.data_type with
  | dmr_data_type_t.MOTOROLA_TMS_SMS =>
    Call.dmr_data_send_motorola_tms_sms (e.repeater == none) e.repeater e.ts e.call_type
      e.dst_id e.msg
  | dmr_data_type_t.NORMAL_SMS =>
    Call.dmr_data_send_sms (e.repeater == none) e.repeater e.ts e.call_type e.dst_id e.msg

/-- Lines 297-322 of `smstxbuf_process`: the first entry is sent, then removed (group
call) or kept with one more send try. -/
def smstxbuf_process_send (q : Queue) : Queue × List Call :=
  match q with
  | [] => ([], [])
  | first :: rest =>
    let first0 := { first with selective_ack_tries := 0 }
    if first0.call_type = dmr_call_type_t.Group then
      (smstxbuf_remove_first_entry (first0 :: rest),
        [send_call first0, Call.daemon_poll_setmaxtimeout])
    else
      ({ first0 with send_tries := first0.send_tries + 1 } :: rest,
        [send_call first0, Call.daemon_poll_setmaxtimeout])

/-- The function `smstxbuf_process`. -/
def smstxbuf_process (env : Env) (now : Int) (q : Queue) : Queue × List Call :=
  match q with
  | [] => ([], [])
  | first :: _ =>
    if env.data_packet_txbuf_pending then (q, [])
    else if first.waiting_for_tms_ack_started_at ≠ 0 ∧
        now - first.waiting_for_tms_ack_started_at < 10 then (q, [])
    else if now < first.added_at + (first.delay_before_send_sec : Int) then (q, [])
    else if first.send_tries ≥ env.smssendmaxretrycount then
      let r := smstxbuf_first_entry_send_unsuccessful env q
      match r.1 with
      | [] => ([], r.2)
      | _ :: _ =>
        let s := smstxbuf_process_send r.1
        (s.1, r.2 ++ s.2)
    else smstxbuf_process_send q

/-- The function `smstxbuf_deinit`. -/
def smstxbuf_deinit (_q : Queue) : Queue := []

/-! ## Runs -/

/-- Whether a call is a call of one of the two transmit primitives. -/
def Call.is_send : Call → Bool
  | Call.dmr_data_send_motorola_tms_sms _ _ _ _ _ _ => true
  | Call.dmr_data_send_sms _ _ _ _ _ _ => true
  | _ => false

/-- One call of a public function of the buffer, with what it reads from outside. -/
inductive Op where
  | add (alloc_ok : Bool) (now : Int) (a : AddArgs)
  | process (env : Env) (now : Int)
  | waiting_for_tms_ack_started (now : Int)
  | sent_successfully (env : Env) (repeater : Option repeater_t)
  | deinit

/-- The state of a run: the queue, every collaborator call made so far (oldest first) and
every entry that `smstxbuf_add` has put into the queue so far (oldest first). -/
structure Run where
  queue : Queue
  calls : List Call
  submitted : List smstxbuf_t

/-- The effect of one call on the state of a run. -/
def step (c : Consts) (s : Run) (op : Op) : Run :=
  match op with
  | Op.add alloc_ok now a =>
    let r := smstxbuf_add c alloc_ok now a s.queue
    { queue := r.1, calls := s.calls ++ r.2,
      submitted := s.submitted ++ r.1.drop s.queue.length }
  | Op.process env now =>
    let r := smstxbuf_process env now s.queue
    { queue := r.1, calls := s.calls ++ r.2, submitted := s.submitted }
  | Op.waiting_for_tms_ack_started now =>
    { queue := smstxbuf_first_entry_waiting_for_tms_ack_started now s.queue,
      calls := s.calls, submitted := s.submitted }
  | Op.sent_successfully env repeater =>
    let r := smstxbuf_first_entry_sent_successfully env repeater s.queue
    { queue := r.1, calls := s.calls ++ r.2, submitted := s.submitted }
  | Op.deinit =>
    { queue := smstxbuf_deinit s.queue, calls := s.calls, submitted := s.submitted }

/-- The run of a sequence of calls from a given state. -/
def run_from (c : Consts) (s : Run) (ops : List Op) : Run := ops.foldl (step c) s

/-- The run of a sequence of calls from the empty queue. -/
def run (c : Consts) (ops : List Op) : Run := run_from c ⟨[], [], []⟩ ops

/-- Each call repeated the given number of times, in order. -/
def repeat_each : List (Call × Nat) → List Call
  | [] => []
  | p :: ps => List.replicate p.2 p.1 ++ repeat_each ps

/-- The equality rule of the duplicate test, between two entries of the queue. -/
def same_message (c : Consts) (x y : smstxbuf_t) : Prop :=
  x.dst_id = y.dst_id ∧ x.data_type = y.data_type ∧ x.repeater = y.repeater ∧
  x.ts = y.ts ∧ x.call_type = y.call_type ∧
  (c_str x.msg).take c.DMRPACKET_MAX_FRAGMENTSIZE = (c_str y.msg).take c.DMRPACKET_MAX_FRAGMENTSIZE

/-- The calls `sub` of the submitted entries split into those of the entries that have left
the queue and those of the queue; `sends` repeats each of the former some number of
times and then the call of the first entry of the queue some number of times. -/
def Fifo (sub sends : List Call) (q : Queue) : Prop :=
  ∃ (done : List (Call × Nat)) (k : Nat),
    sub = done.map Prod.fst ++ q.map send_call ∧
    sends = repeat_each done ++
      (match q with
        | [] => []
        | h :: _ => List.replicate k (send_call h))

/-- The state of a run satisfies `Fifo`. -/
def FifoInv (s : Run) : Prop :=
  Fifo (s.submitted.map send_call) (s.calls.filter Call.is_send) s.queue

/-- No entry of the queue equals its successor under the rule of the duplicate test. -/
def NoAdjacentDuplicate (c : Consts) (q : Queue) : Prop :=
  List.Chain' (fun x y => ¬ same_message c x y) q

/-! ## Sample values -/

/-- A fragment size of four bytes. -/
def sample_consts : Consts := ⟨4⟩

/-- A private plain short message "hi" for subscriber 7, no repeater, no delay, no id. -/
def sample_args : AddArgs :=
  { delay_before_send_sec := 0, repeater := none, ts := 0,
    calltype := dmr_call_type_t.Private, dstid := 7,
    data_type := dmr_data_type_t.NORMAL_SMS, msg := some [104, 105], db_id := 0,
    aprs_msg := none }

/-- A private plain short message "yo" for subscriber 8 with a delay of 200 seconds. -/
def sample_args_delayed : AddArgs :=
  { delay_before_send_sec := 200, repeater := none, ts := 0,
    calltype := dmr_call_type_t.Private, dstid := 8,
    data_type := dmr_data_type_t.NORMAL_SMS, msg := some [121, 111], db_id := 0,
    aprs_msg := none }

/-- The entry `smstxbuf_add` makes of `sample_args` at time 0. -/
def sample_entry : smstxbuf_t := new_smstxbuf_entry sample_consts 0 sample_args [104, 105]

/-- The entry `smstxbuf_add` makes of `sample_args_delayed` at time 0. -/
def sample_entry_delayed : smstxbuf_t :=
  new_smstxbuf_entry sample_consts 0 sample_args_delayed [121, 111]

/-- Surroundings with the given maximum retry count, an empty data-packet TX buffer and an
empty round-trip buffer. -/
def sample_env (maxretry : Nat) : Env :=
  { smssendmaxretrycount := maxretry, data_packet_txbuf_pending := false,
    smsrtbuf_find := fun _ _ => none }

/-- Surroundings like `sample_env`, with a pending entry in the data-packet TX buffer. -/
def sample_env_pending (maxretry : Nat) : Env :=
  { smssendmaxretrycount := maxretry, data_packet_txbuf_pending := true,
    smsrtbuf_find := fun _ _ => none }

/-- A private plain short message "yo" for subscriber 9, no repeater, no delay, no id. -/
def sample_args_second : AddArgs :=
  { delay_before_send_sec := 0, repeater := none, ts := 0,
    calltype := dmr_call_type_t.Private, dstid := 9,
    data_type := dmr_data_type_t.NORMAL_SMS, msg := some [121, 111], db_id := 0,
    aprs_msg := none }

/-- The entry `smstxbuf_add` makes of `sample_args_second` at time 0. -/
def sample_entry_second : smstxbuf_t :=
  new_smstxbuf_entry sample_consts 0 sample_args_second [121, 111]

/-! ## Kinds of calls -/

/-- Whether a call is a call of `remotedb_msgqueue_updateentry`, the status store. -/
def Call.is_status_update : Call → Bool
  | Call.remotedb_msgqueue_updateentry _ _ => true
  | _ => false

/-- Whether a call is a call of `smsrtbuf_find_entry`, the round-trip lookup. -/
def Call.is_lookup : Call → Bool
  | Call.smsrtbuf_find_entry _ _ => true
  | _ => false

/-- Whether a call marks a round-trip buffer entry as succeeded or as failed. -/
def Call.is_mark : Call → Bool
  | Call.smsrtbuf_entry_sent_successfully _ => true
  | Call.smsrtbuf_entry_send_unsuccessful _ => true
  | _ => false

/-- Whether a call is a call of `aprs_add_to_queue_msg`, the ack emitter. -/
def Call.is_ack_reply : Call → Bool
  | Call.aprs_add_to_queue_msg _ _ _ _ => true
  | _ => false

/-- Lines 173-189 of `smstxbuf_first_entry_sent_successfully`: the ack reply handed to
`aprs_add_to_queue_msg` for the first entry, if any. -/
def ack_reply_calls (first : smstxbuf_t) (repeater : Option repeater_t) : List Call :=
  match first.aprs_msg with
  | none => []
  | some am =>
    if am.ackpart.head? = none ∨ am.ackpart.head? = some 0 then []
    else
      match repeater with
      | none => []
      | some r =>
        if r.callsign.head? = none ∨ r.callsign.head? = some 0 then []
        else [Call.aprs_add_to_queue_msg am.src_callsign am.dst_callsign
                (aprs_ack_msg am.ackpart) r.callsign]

/-- Origin data with the source callsign "A", the destination callsign "B" and the
acknowledgment token "7". -/
def sample_aprs : aprs_msg_t := { src_callsign := [65], dst_callsign := [66], ackpart := [55] }

/-- A repeater with the callsign "R". -/
def sample_repeater : repeater_t := { callsign := [82] }

/-- The entry `sample_entry` with the id 5 and the origin data `sample_aprs`. -/
def sample_entry_aprs : smstxbuf_t :=
  { sample_entry with db_id := 5, aprs_msg := some sample_aprs }

/-- Surroundings like `sample_env` whose round-trip buffer holds the entry 3 for every key. -/
def sample_env_found (maxretry : Nat) : Env :=
  { smssendmaxretrycount := maxretry, data_packet_txbuf_pending := false,
    smsrtbuf_find := fun _ _ => some 3 }

/-! ## Predicates on queues -/

/-- Whether the entries that share a db_id stand next to each other in the queue: an
entry is followed by an entry with its db_id or by no entry with its db_id at all. -/
def db_ids_adjacent : Queue → Bool
  | [] => true
  | e :: rest =>
    (rest.all (fun x => decide (x.db_id ≠ e.db_id)) ||
      decide (rest.head?.map (fun x => x.db_id) = some e.db_id)) &&
    db_ids_adjacent rest

/-- No entry behind the first one has `waiting_for_tms_ack_started_at` set. -/
def OnlyFirstWaits (q : Queue) : Prop :=
  ∀ e ∈ q.tail, e.waiting_for_tms_ack_started_at = 0

/-- Every entry has at most `n` send tries and no entry behind the first one has any. -/
def TriesInv (n : Nat) (q : Queue) : Prop :=
  (∀ e ∈ q, e.send_tries ≤ n) ∧ (∀ e ∈ q.tail, e.send_tries = 0)

/-- Every call of `smstxbuf_process` in the sequence reads the maximum retry count `n`. -/
def fixed_maximum (n : Nat) (ops : List Op) : Prop :=
  ∀ env now, Op.process env now ∈ ops → env.smssendmaxretrycount = n
/-! ## The loop of smstxbuf_deinit -/

/-- Lines 329-333 of `smstxbuf_deinit`: while the first entry is not NULL, it is freed and
its successor becomes the first entry; the result is the list left when the loop ends. -/
def smstxbuf_deinit_loop : Queue → Queue
  | [] => []
  | _ :: next_entry => smstxbuf_deinit_loop next_entry

/-- The two module pointers, `smstxbuf_first_entry` (with the list that hangs on it) and
`smstxbuf_last_entry`, after `smstxbuf_deinit` (lines 329-334): the loop has run on the
first, the last is set to NULL. -/
def smstxbuf_deinit_pointers (first : Queue) (_last : Option smstxbuf_t) :
    Queue × Option smstxbuf_t :=
  (smstxbuf_deinit_loop first, none)
/-- The submission `sample_args` with the id 9, a delay of 30 seconds and origin data. -/
def sample_args_correlated : AddArgs :=
  { sample_args with db_id := 9, delay_before_send_sec := 30, aprs_msg := some sample_aprs }

/-! # Theorems -/

/-! ## General facts about the functions -/

theorem smstxbuf_add_cases (c : Consts) (alloc_ok : Bool) (now : Int) (a : AddArgs) (q : Queue) :
    smstxbuf_add c alloc_ok now a q = (q, []) ∨
    ∃ msg, a.msg = some msg ∧
      smstxbuf_add c alloc_ok now a q =
        (q ++ [new_smstxbuf_entry c now a msg], [Call.daemon_poll_setmaxtimeout]) := by
  unfold smstxbuf_add
  cases hm : a.msg with
  | none => left; rfl
  | some msg =>
    cases hl : q.getLast? with
    | none =>
      have hq : q = [] := List.getLast?_eq_none_iff.mp hl
      subst hq
      cases alloc_ok
      · left; rfl
      · right; exact ⟨msg, rfl, rfl⟩
    | some last =>
      by_cases hd : is_duplicate c last a msg = true
      · left; simp [hd]
      · cases alloc_ok
        · left; simp [hd]
        · right; exact ⟨msg, rfl, by simp [hd]⟩

theorem send_call_is_send (e : smstxbuf_t) : (send_call e).is_send = true := by
  unfold send_call
  cases e.data_type <;> rfl

theorem send_unsuccessful_no_send (env : Env) (q : Queue) :
    (smstxbuf_first_entry_send_unsuccessful env q).2.filter Call.is_send = [] := by
  unfold smstxbuf_first_entry_send_unsuccessful
  cases q with
  | nil => rfl
  | cons first rest =>
    simp only [List.filter_append]
    cases env.smsrtbuf_find first.dst_id first.msg <;> split_ifs <;> simp [Call.is_send]

theorem send_unsuccessful_queue (env : Env) (q : Queue) :
    (smstxbuf_first_entry_send_unsuccessful env q).1 = q.tail := by
  unfold smstxbuf_first_entry_send_unsuccessful
  cases q <;> rfl

theorem sent_successfully_no_send (env : Env) (repeater : Option repeater_t) (q : Queue) :
    (smstxbuf_first_entry_sent_successfully env repeater q).2.filter Call.is_send = [] := by
  unfold smstxbuf_first_entry_sent_successfully
  cases q with
  | nil => rfl
  | cons first rest =>
    simp only [List.filter_append]
    cases env.smsrtbuf_find first.dst_id first.msg <;> cases first.aprs_msg <;>
      cases repeater <;> simp [Call.is_send] <;> intros <;> subst_vars <;> rfl

theorem sent_successfully_queue (env : Env) (repeater : Option repeater_t) (q : Queue) :
    (smstxbuf_first_entry_sent_successfully env repeater q).1 = q.tail := by
  unfold smstxbuf_first_entry_sent_successfully
  cases q <;> rfl

/-- What the sending part of `smstxbuf_process` does to a non-empty queue. -/
theorem process_send_cons (first : smstxbuf_t) (rest : Queue) :
    smstxbuf_process_send (first :: rest) =
      (if first.call_type = dmr_call_type_t.Group then rest
        else { first with selective_ack_tries := 0, send_tries := first.send_tries + 1 } :: rest,
       [send_call first, Call.daemon_poll_setmaxtimeout]) := by
  unfold smstxbuf_process_send
  by_cases h : first.call_type = dmr_call_type_t.Group
  · simp [h, smstxbuf_remove_first_entry, send_call]
  · simp [h, send_call]

/-- The four ways a call of `smstxbuf_process` on a non-empty queue can go. -/
theorem process_cons_cases (env : Env) (now : Int) (first : smstxbuf_t) (rest : Queue) :
    smstxbuf_process env now (first :: rest) = (first :: rest, []) ∨
    (first.send_tries < env.smssendmaxretrycount ∧
      smstxbuf_process env now (first :: rest) = smstxbuf_process_send (first :: rest)) ∨
    (env.smssendmaxretrycount ≤ first.send_tries ∧ rest = [] ∧
      smstxbuf_process env now (first :: rest) =
        ([], (smstxbuf_first_entry_send_unsuccessful env (first :: rest)).2)) ∨
    (env.smssendmaxretrycount ≤ first.send_tries ∧ rest ≠ [] ∧
      smstxbuf_process env now (first :: rest) =
        ((smstxbuf_process_send rest).1,
          (smstxbuf_first_entry_send_unsuccessful env (first :: rest)).2 ++
            (smstxbuf_process_send rest).2)) := by
  unfold smstxbuf_process
  by_cases h1 : env.data_packet_txbuf_pending = true
  · left; simp [h1]
  by_cases h2 : first.waiting_for_tms_ack_started_at ≠ 0 ∧
      now - first.waiting_for_tms_ack_started_at < 10
  · left; simp [h1, h2]
  by_cases h3 : now < first.added_at + (first.delay_before_send_sec : Int)
  · left; simp only [h1, h2, h3]; simp
  by_cases h4 : first.send_tries ≥ env.smssendmaxretrycount
  · right; right
    cases rest with
    | nil =>
      left
      refine ⟨h4, rfl, ?_⟩
      simp only [h1, h2, h3, h4, send_unsuccessful_queue]
      simp
    | cons second more =>
      right
      refine ⟨h4, by simp, ?_⟩
      simp only [h1, h2, h3, h4, send_unsuccessful_queue]
      simp
  · right; left
    refine ⟨by omega, ?_⟩
    simp only [h1, h2, h3, h4]
    simp

/-! ## Transmissions follow the order of submission -/

theorem repeat_each_append (ps qs : List (Call × Nat)) :
    repeat_each (ps ++ qs) = repeat_each ps ++ repeat_each qs := by
  induction ps with
  | nil => rfl
  | cons p ps ih => simp [repeat_each, ih]

theorem repeat_each_zero (q : Queue) :
    repeat_each (q.map (fun e => (send_call e, 0))) = [] := by
  induction q with
  | nil => rfl
  | cons x l ih => simp [repeat_each, ih]

theorem fifo_remove {sub sends : List Call} {h : smstxbuf_t} {t : Queue}
    (hf : Fifo sub sends (h :: t)) : Fifo sub sends t := by
  obtain ⟨done, k, h1, h2⟩ := hf
  refine ⟨done ++ [(send_call h, k)], 0, ?_, ?_⟩
  · simp [h1]
  · cases t <;> simp [h2, repeat_each_append, repeat_each]

theorem fifo_tail {sub sends : List Call} {q : Queue} (hf : Fifo sub sends q) :
    Fifo sub sends q.tail := by
  cases q with
  | nil => exact hf
  | cons h t => exact fifo_remove hf

theorem fifo_clear {sub sends : List Call} {q : Queue} (hf : Fifo sub sends q) :
    Fifo sub sends [] := by
  induction q with
  | nil => exact hf
  | cons h t ih => exact ih (fifo_remove hf)

theorem fifo_modify {sub sends : List Call} {h h2 : smstxbuf_t} {t : Queue}
    (hf : Fifo sub sends (h :: t)) (he : send_call h2 = send_call h) :
    Fifo sub sends (h2 :: t) := by
  obtain ⟨done, k, h1, h2⟩ := hf
  exact ⟨done, k, by simp [h1, he], by simp [h2, he]⟩

theorem fifo_send {sub sends : List Call} {h h2 : smstxbuf_t} {t : Queue}
    (hf : Fifo sub sends (h :: t)) (he : send_call h2 = send_call h) :
    Fifo sub (sends ++ [send_call h]) (h2 :: t) := by
  obtain ⟨done, k, h1, h2⟩ := hf
  refine ⟨done, k + 1, by simp [h1, he], ?_⟩
  simp [h2, he, List.replicate_succ']

theorem fifo_add {sub sends : List Call} {q : Queue} (e : smstxbuf_t)
    (hf : Fifo sub sends q) : Fifo (sub ++ [send_call e]) sends (q ++ [e]) := by
  obtain ⟨done, k, h1, h2⟩ := hf
  cases q with
  | nil => exact ⟨done, 0, by simp [h1], by simpa using h2⟩
  | cons h t => exact ⟨done, k, by simp [h1], by simpa using h2⟩

theorem fifo_process_send {sub sends : List Call} {q : Queue} (hf : Fifo sub sends q) :
    Fifo sub (sends ++ (smstxbuf_process_send q).2.filter Call.is_send)
      (smstxbuf_process_send q).1 := by
  cases q with
  | nil => simpa [smstxbuf_process_send] using hf
  | cons first rest =>
    rw [process_send_cons]
    have hs : [send_call first, Call.daemon_poll_setmaxtimeout].filter Call.is_send =
        [send_call first] := by
      rw [List.filter_cons, if_pos (send_call_is_send first)]; rfl
    simp only [hs]
    by_cases hg : first.call_type = dmr_call_type_t.Group
    · simp only [hg, if_true]
      exact fifo_remove (fifo_send hf rfl)
    · simp only [hg, if_false]
      exact fifo_send hf (by simp [send_call])

theorem fifo_process {sub sends : List Call} {q : Queue} (env : Env) (now : Int)
    (hf : Fifo sub sends q) :
    Fifo sub (sends ++ (smstxbuf_process env now q).2.filter Call.is_send)
      (smstxbuf_process env now q).1 := by
  cases q with
  | nil => simpa [smstxbuf_process] using hf
  | cons first rest =>
    rcases process_cons_cases env now first rest with h | ⟨_, h⟩ | ⟨_, _, h⟩ | ⟨_, _, h⟩
    · rw [h]; simpa using hf
    · rw [h]; exact fifo_process_send hf
    · rw [h]
      simp only [send_unsuccessful_no_send, List.append_nil]
      subst_vars
      exact fifo_remove hf
    · rw [h]
      simp only [List.filter_append, send_unsuccessful_no_send, List.nil_append]
      exact fifo_process_send (fifo_remove hf)

theorem fifo_step (c : Consts) (s : Run) (op : Op) (hf : FifoInv s) : FifoInv (step c s op) := by
  unfold FifoInv at *
  cases op with
  | add alloc_ok now a =>
    simp only [step]
    rcases smstxbuf_add_cases c alloc_ok now a s.queue with h | ⟨msg, _, h⟩
    · rw [h]; simpa using hf
    · rw [h]
      simp only [List.drop_left, List.map_append, List.map_cons, List.map_nil,
        List.filter_append]
      have : [Call.daemon_poll_setmaxtimeout].filter Call.is_send = [] := rfl
      rw [this, List.append_nil]
      exact fifo_add _ hf
  | process env now =>
    simp only [step, List.filter_append]
    exact fifo_process env now hf
  | waiting_for_tms_ack_started now =>
    simp only [step]
    cases hq : s.queue with
    | nil => rw [hq] at hf; simpa [smstxbuf_first_entry_waiting_for_tms_ack_started] using hf
    | cons first rest =>
      rw [hq] at hf
      exact fifo_modify hf (by simp [send_call])
  | sent_successfully env repeater =>
    simp only [step, List.filter_append, sent_successfully_no_send, List.append_nil,
      sent_successfully_queue]
    exact fifo_tail hf
  | deinit =>
    simp only [step, smstxbuf_deinit]
    exact fifo_clear hf

theorem fifo_run_from (c : Consts) (ops : List Op) (s : Run) (hf : FifoInv s) :
    FifoInv (run_from c s ops) := by
  induction ops generalizing s with
  | nil => exact hf
  | cons op ops ih => exact ih _ (fifo_step c s op hf)

/-- A transmit call of `smstxbuf_process` is the call for the entry that is first in the
queue when it is made: the first entry of the queue, or the second one after the first
has been finalized as failed. -/
theorem process_send_is_first (env : Env) (now : Int) (q : Queue) (call : Call)
    (hc : call ∈ (smstxbuf_process env now q).2) (hs : call.is_send = true) :
    ∃ first rest, call = send_call first ∧
      ((q = first :: rest ∧ first.send_tries < env.smssendmaxretrycount) ∨
       ∃ failed, q = failed :: first :: rest ∧ env.smssendmaxretrycount ≤ failed.send_tries) := by
  cases q with
  | nil => simp [smstxbuf_process] at hc
  | cons first rest =>
    rcases process_cons_cases env now first rest with h | ⟨hlt, h⟩ | ⟨_, _, h⟩ | ⟨hge, hne, h⟩
    · rw [h] at hc; simp at hc
    · rw [h, process_send_cons] at hc
      simp only [List.mem_cons, List.mem_singleton, List.not_mem_nil, or_false] at hc
      rcases hc with hc | hc
      · exact ⟨first, rest, hc, Or.inl ⟨rfl, hlt⟩⟩
      · subst hc; simp [Call.is_send] at hs
    · rw [h] at hc
      have hn := send_unsuccessful_no_send env (first :: rest)
      rw [List.filter_eq_nil_iff] at hn
      exact absurd hs (hn call hc)
    · rw [h] at hc
      rcases List.mem_append.mp hc with hc | hc
      · have hn := send_unsuccessful_no_send env (first :: rest)
        rw [List.filter_eq_nil_iff] at hn
        exact absurd hs (hn call hc)
      · cases rest with
        | nil => exact absurd rfl hne
        | cons second more =>
          rw [process_send_cons] at hc
          simp only [List.mem_cons, List.mem_singleton, List.not_mem_nil, or_false] at hc
          rcases hc with hc | hc
          · exact ⟨second, more, hc, Or.inr ⟨first, rfl, hge⟩⟩
          · subst hc; simp [Call.is_send] at hs

/-- One call of `smstxbuf_process` makes at most one transmit call. -/
theorem process_send_count (env : Env) (now : Int) (q : Queue) :
    ((smstxbuf_process env now q).2.filter Call.is_send).length ≤ 1 := by
  have hs : ∀ q : Queue, ((smstxbuf_process_send q).2.filter Call.is_send).length ≤ 1 := by
    intro q
    cases q with
    | nil => simp [smstxbuf_process_send]
    | cons first rest =>
      rw [process_send_cons, List.filter_cons, if_pos (send_call_is_send first)]
      simp [Call.is_send]
  cases q with
  | nil => simp [smstxbuf_process]
  | cons first rest =>
    rcases process_cons_cases env now first rest with h | ⟨_, h⟩ | ⟨_, _, h⟩ | ⟨_, _, h⟩
    · rw [h]; simp
    · rw [h]; exact hs _
    · rw [h]; simp [send_unsuccessful_no_send]
    · rw [h]
      simp only [List.filter_append, send_unsuccessful_no_send, List.nil_append]
      exact hs _

/-- C1 (FIFO). In every state reached from the empty queue by calls of `smstxbuf_add`,
`smstxbuf_process`, `smstxbuf_first_entry_waiting_for_tms_ack_started`,
`smstxbuf_first_entry_sent_successfully` (and `smstxbuf_deinit`): (a) a call of
`smstxbuf_add` either leaves the queue as it is or appends the new entry behind the
unchanged previous entries; (b) a call of `smstxbuf_process` makes at most one transmit
call, and that call carries the fields of the entry that is first in the queue when it is
made (the first entry, or the second one once the first has been finalized as failed in
the same call); (c) the transmit calls made during the whole run are the calls of the
submitted entries in the order of submission, each repeated some number of times. -/
theorem fifo_order (c : Consts) (ops : List Op) :
    (∀ (alloc_ok : Bool) (now : Int) (a : AddArgs),
      smstxbuf_add c alloc_ok now a (run c ops).queue = ((run c ops).queue, []) ∨
      ∃ msg, a.msg = some msg ∧
        smstxbuf_add c alloc_ok now a (run c ops).queue =
          ((run c ops).queue ++ [new_smstxbuf_entry c now a msg],
            [Call.daemon_poll_setmaxtimeout])) ∧
    (∀ (env : Env) (now : Int),
      ((smstxbuf_process env now (run c ops).queue).2.filter Call.is_send).length ≤ 1 ∧
      ∀ call, call ∈ (smstxbuf_process env now (run c ops).queue).2 → call.is_send = true →
        ∃ first rest, call = send_call first ∧
          (((run c ops).queue = first :: rest ∧ first.send_tries < env.smssendmaxretrycount) ∨
           ∃ failed, (run c ops).queue = failed :: first :: rest ∧
             env.smssendmaxretrycount ≤ failed.send_tries)) ∧
    (∃ ps : List (Call × Nat),
      ps.map Prod.fst = (run c ops).submitted.map send_call ∧
      (run c ops).calls.filter Call.is_send = repeat_each ps) := by
  refine ⟨fun alloc_ok now a => smstxbuf_add_cases c alloc_ok now a _,
    fun env now => ⟨process_send_count env now _,
      fun call hc hs => process_send_is_first env now _ call hc hs⟩, ?_⟩
  have hf : FifoInv (run c ops) :=
    fifo_run_from c ops ⟨[], [], []⟩ ⟨[], 0, rfl, rfl⟩
  obtain ⟨done, k, h1, h2⟩ := hf
  cases hq : (run c ops).queue with
  | nil =>
    rw [hq] at h1 h2
    exact ⟨done, by simpa using h1.symm, by simpa using h2⟩
  | cons first rest =>
    rw [hq] at h1 h2
    refine ⟨done ++ (send_call first, k) :: rest.map (fun e => (send_call e, 0)), ?_, ?_⟩
    · simp [h1, Function.comp_def]
    · rw [h2, repeat_each_append]
      simp [repeat_each, repeat_each_zero]

/-! ## Duplicates of the last entry -/

theorem c_str_take_c_str (m : cstring) (n : Nat) :
    c_str ((c_str m).take n) = (c_str m).take n := by
  unfold c_str
  rw [List.takeWhile_eq_self_iff]
  intro x hx
  have hm : x ∈ List.takeWhile (fun c => decide (c ≠ 0)) m := List.mem_of_mem_take hx
  have hp := List.mem_takeWhile_imp hm
  simpa using hp

theorem strncpy_take (m : cstring) (n : Nat) :
    (c_str (strncpy m n)).take n = (c_str m).take n := by
  unfold strncpy
  rw [c_str_take_c_str, List.take_take, Nat.min_self]

theorem is_duplicate_iff (c : Consts) (now : Int) (last : smstxbuf_t) (a : AddArgs)
    (msg : cstring) :
    is_duplicate c last a msg = true ↔ same_message c last (new_smstxbuf_entry c now a msg) := by
  simp only [is_duplicate, strncmp_eq, same_message, new_smstxbuf_entry, strncpy_take,
    Bool.and_eq_true, decide_eq_true_eq]
  tauto

theorem no_dup_tail {c : Consts} {q : Queue} (h : NoAdjacentDuplicate c q) :
    NoAdjacentDuplicate c q.tail :=
  List.Chain'.tail h

theorem no_dup_modify {c : Consts} {h h2 : smstxbuf_t} {t : Queue}
    (hn : NoAdjacentDuplicate c (h :: t))
    (he : ∀ y, same_message c h2 y → same_message c h y) :
    NoAdjacentDuplicate c (h2 :: t) := by
  unfold NoAdjacentDuplicate at *
  rw [List.chain'_cons'] at *
  exact ⟨fun y hy hs => hn.1 y hy (he y hs), hn.2⟩

theorem no_dup_process_send {c : Consts} {q : Queue} (hn : NoAdjacentDuplicate c q) :
    NoAdjacentDuplicate c (smstxbuf_process_send q).1 := by
  cases q with
  | nil => exact hn
  | cons first rest =>
    rw [process_send_cons]
    by_cases hg : first.call_type = dmr_call_type_t.Group
    · simp only [hg, if_true]
      exact no_dup_tail hn
    · simp only [hg, if_false]
      exact no_dup_modify hn (fun y hy => hy)

theorem no_dup_process {c : Consts} {q : Queue} (env : Env) (now : Int)
    (hn : NoAdjacentDuplicate c q) : NoAdjacentDuplicate c (smstxbuf_process env now q).1 := by
  cases q with
  | nil => exact hn
  | cons first rest =>
    rcases process_cons_cases env now first rest with h | ⟨_, h⟩ | ⟨_, _, h⟩ | ⟨_, _, h⟩
    · rw [h]; exact hn
    · rw [h]; exact no_dup_process_send hn
    · rw [h]; exact List.chain'_nil
    · rw [h]; exact no_dup_process_send (no_dup_tail hn)

theorem no_dup_add {c : Consts} {q : Queue} (alloc_ok : Bool) (now : Int) (a : AddArgs)
    (hn : NoAdjacentDuplicate c q) :
    NoAdjacentDuplicate c (smstxbuf_add c alloc_ok now a q).1 := by
  unfold smstxbuf_add
  cases hm : a.msg with
  | none => exact hn
  | some msg =>
    cases hl : q.getLast? with
    | none =>
      cases alloc_ok
      · exact hn
      · exact List.chain'_singleton _
    | some last =>
      by_cases hd : is_duplicate c last a msg = true
      · simpa [hd] using hn
      · cases alloc_ok
        · simpa [hd] using hn
        · simp only [hd, Bool.not_true, if_false, Bool.false_eq_true]
          refine List.Chain'.append hn (List.chain'_singleton _) ?_
          intro x hx y hy
          rw [hl] at hx
          simp only [Option.mem_def, Option.some.injEq] at hx
          simp only [List.head?_cons, Option.mem_def, Option.some.injEq] at hy
          subst hx hy
          exact fun hs => hd ((is_duplicate_iff c now _ a msg).mpr hs)

theorem no_dup_step (c : Consts) (s : Run) (op : Op) (hn : NoAdjacentDuplicate c s.queue) :
    NoAdjacentDuplicate c (step c s op).queue := by
  cases op with
  | add alloc_ok now a => exact no_dup_add alloc_ok now a hn
  | process env now => exact no_dup_process env now hn
  | waiting_for_tms_ack_started now =>
    simp only [step]
    cases hq : s.queue with
    | nil => exact List.chain'_nil
    | cons first rest =>
      rw [hq] at hn
      exact no_dup_modify hn (fun y hy => hy)
  | sent_successfully env repeater =>
    simp only [step, sent_successfully_queue]
    exact no_dup_tail hn
  | deinit => exact List.chain'_nil

theorem no_dup_run_from (c : Consts) (ops : List Op) (s : Run)
    (hn : NoAdjacentDuplicate c s.queue) : NoAdjacentDuplicate c (run_from c s ops).queue := by
  induction ops generalizing s with
  | nil => exact hn
  | cons op ops ih => exact ih _ (no_dup_step c s op hn)

/-- C2 (Dedup). If the queue is not empty and a submission agrees with the last entry in
destination id, data type, repeater, timeslot, call type and body (compared within the
maximum fragment size), `smstxbuf_add` returns the queue unchanged and makes no call, so
the scheduling hint is not signalled; and in every state reached from the empty queue no
entry equals its successor under that rule. -/
theorem dedup_tail (c : Consts) :
    (∀ (alloc_ok : Bool) (now : Int) (a : AddArgs) (q : Queue) (last : smstxbuf_t)
        (msg : cstring),
      q.getLast? = some last → a.msg = some msg →
      last.dst_id = a.dstid → last.data_type = a.data_type → last.repeater = a.repeater →
      last.ts = a.ts → last.call_type = a.calltype →
      (c_str last.msg).take c.DMRPACKET_MAX_FRAGMENTSIZE =
        (c_str msg).take c.DMRPACKET_MAX_FRAGMENTSIZE →
      smstxbuf_add c alloc_ok now a q = (q, [])) ∧
    (∀ ops : List Op, NoAdjacentDuplicate c (run c ops).queue) := by
  constructor
  · intro alloc_ok now a q last msg hl hm h1 h2 h3 h4 h5 h6
    unfold smstxbuf_add
    rw [hm]
    simp only [hl]
    have hd : is_duplicate c last a msg = true := by
      simp [is_duplicate, strncmp_eq, h1, h2, h3, h4, h5, h6]
    simp [hd]
  · intro ops
    exact no_dup_run_from c ops ⟨[], [], []⟩ List.chain'_nil

/-- The submission "hi" for subscriber 7 repeated behind an equal last entry is dropped. -/
theorem dedup_tail_witness :
    smstxbuf_add sample_consts true 5 sample_args [sample_entry_delayed, sample_entry] =
      ([sample_entry_delayed, sample_entry], []) :=
  (dedup_tail sample_consts).1 true 5 sample_args [sample_entry_delayed, sample_entry]
    sample_entry [104, 105] rfl rfl rfl rfl rfl rfl rfl (by decide)

/-! ## Rejected submissions -/

/-- C3, as the claim states it, fails: an empty body (the empty string, not NULL) on the
empty queue is not rejected, an entry with the empty body is inserted and the scheduling
hint is signalled. -/
theorem add_empty_body_is_inserted :
    smstxbuf_add sample_consts true 0 { sample_args with msg := some [] } [] =
      ([{ sample_entry with msg := [] }], [Call.daemon_poll_setmaxtimeout]) := by
  decide

/-- C3 (amended). For every queue, `smstxbuf_add` called with a NULL body returns the queue
unchanged and makes no call. The empty string is a body like any other: when memory is
available and the queue is empty or its last entry is no duplicate, the entry with the
empty body is appended and the scheduling hint is signalled. -/
theorem add_null_body_noop (c : Consts) (alloc_ok : Bool) (now : Int) (a : AddArgs) (q : Queue) :
    smstxbuf_add c alloc_ok now { a with msg := none } q = (q, []) ∧
    ((∀ last, q.getLast? = some last →
        is_duplicate c last { a with msg := some [] } [] = false) →
      smstxbuf_add c true now { a with msg := some [] } q =
        (q ++ [{ new_smstxbuf_entry c now a [] with msg := [] }],
          [Call.daemon_poll_setmaxtimeout])) := by
  refine ⟨rfl, fun h => ?_⟩
  unfold smstxbuf_add
  cases hl : q.getLast? with
  | none =>
    have hq : q = [] := List.getLast?_eq_none_iff.mp hl
    subst hq
    simp [new_smstxbuf_entry, strncpy, c_str]
  | some last =>
    have hd := h last hl
    simp [hd, new_smstxbuf_entry, strncpy, c_str]

/-- A NULL body leaves a one-entry queue as it is; an empty body is appended to it. -/
theorem add_null_body_noop_witness :
    smstxbuf_add sample_consts true 3 { sample_args with msg := none } [sample_entry] =
      ([sample_entry], []) ∧
    smstxbuf_add sample_consts true 3 { sample_args with msg := some [] } [sample_entry] =
      ([sample_entry, { new_smstxbuf_entry sample_consts 3 sample_args [] with msg := [] }],
        [Call.daemon_poll_setmaxtimeout]) :=
  ⟨(add_null_body_noop sample_consts true 3 sample_args [sample_entry]).1,
   (add_null_body_noop sample_consts true 3 sample_args [sample_entry]).2
     (fun last hl => by
       have : last = sample_entry := by simpa using hl.symm
       subst this
       decide)⟩

/-! ## Guards of smstxbuf_process -/

/-- C4 (single in-flight). If the first entry has `waiting_for_tms_ack_started_at` set and
fewer than 10 seconds have passed since, `smstxbuf_process` makes no call at all (no
transmit call, no outcome handler) and returns the queue unchanged, whatever the send
tries, the delay, the call type and the maximum retry count are. -/
theorem ack_window_blocks (env : Env) (now : Int) (first : smstxbuf_t) (rest : Queue)
    (hset : first.waiting_for_tms_ack_started_at ≠ 0)
    (hlive : now - first.waiting_for_tms_ack_started_at < 10) :
    smstxbuf_process env now (first :: rest) = (first :: rest, []) := by
  unfold smstxbuf_process
  by_cases hp : env.data_packet_txbuf_pending = true
  · simp [hp]
  · simp [hp, hset, hlive]

/-- Nine seconds into the ack window nothing happens, with all send tries used up. -/
theorem ack_window_blocks_witness :
    smstxbuf_process (sample_env 2) 109
        [{ sample_entry with waiting_for_tms_ack_started_at := 100, send_tries := 2 },
          sample_entry_delayed] =
      ([{ sample_entry with waiting_for_tms_ack_started_at := 100, send_tries := 2 },
          sample_entry_delayed], []) :=
  ack_window_blocks (sample_env 2) 109
    { sample_entry with waiting_for_tms_ack_started_at := 100, send_tries := 2 }
    [sample_entry_delayed] (by decide) (by decide)

/-- C5 (sibling priority). If the data-packet TX buffer reports a pending entry,
`smstxbuf_process` makes no call at all (no transmit call, no outcome handler, also when
the send tries of the first entry have reached the maximum) and returns the queue
unchanged. -/
theorem sibling_pending_blocks (env : Env) (now : Int) (q : Queue)
    (hp : env.data_packet_txbuf_pending = true) :
    smstxbuf_process env now q = (q, []) := by
  unfold smstxbuf_process
  cases q with
  | nil => rfl
  | cons first rest => simp [hp]

/-- With the data-packet TX buffer pending nothing happens, with all send tries used up. -/
theorem sibling_pending_blocks_witness :
    smstxbuf_process (sample_env_pending 2) 500
        [{ sample_entry with send_tries := 2 }, sample_entry_delayed] =
      ([{ sample_entry with send_tries := 2 }, sample_entry_delayed], []) :=
  sibling_pending_blocks (sample_env_pending 2) 500
    [{ sample_entry with send_tries := 2 }, sample_entry_delayed] rfl

/-! ## The sending and the failing path of smstxbuf_process -/

/-- With no guard applying and send tries left, `smstxbuf_process` is its sending part. -/
theorem process_eq_send (env : Env) (now : Int) (first : smstxbuf_t) (rest : Queue)
    (hsib : env.data_packet_txbuf_pending = false)
    (hwin : ¬ (first.waiting_for_tms_ack_started_at ≠ 0 ∧
      now - first.waiting_for_tms_ack_started_at < 10))
    (hdelay : first.added_at + (first.delay_before_send_sec : Int) ≤ now)
    (htries : first.send_tries < env.smssendmaxretrycount) :
    smstxbuf_process env now (first :: rest) = smstxbuf_process_send (first :: rest) := by
  unfold smstxbuf_process
  have h3 : ¬ now < first.added_at + (first.delay_before_send_sec : Int) := by omega
  have h4 : ¬ first.send_tries ≥ env.smssendmaxretrycount := by omega
  simp only [hsib, hwin, h3, h4]
  simp

/-- With no guard applying and no send tries left, `smstxbuf_process` runs the failure
handler and then, unless the queue has become empty, its sending part on what is left. -/
theorem process_eq_fail (env : Env) (now : Int) (first : smstxbuf_t) (rest : Queue)
    (hsib : env.data_packet_txbuf_pending = false)
    (hwin : ¬ (first.waiting_for_tms_ack_started_at ≠ 0 ∧
      now - first.waiting_for_tms_ack_started_at < 10))
    (hdelay : first.added_at + (first.delay_before_send_sec : Int) ≤ now)
    (htries : env.smssendmaxretrycount ≤ first.send_tries) :
    smstxbuf_process env now (first :: rest) =
      (match rest with
        | [] => ([], (smstxbuf_first_entry_send_unsuccessful env (first :: rest)).2)
        | _ :: _ => ((smstxbuf_process_send rest).1,
            (smstxbuf_first_entry_send_unsuccessful env (first :: rest)).2 ++
              (smstxbuf_process_send rest).2)) := by
  unfold smstxbuf_process
  have h3 : ¬ now < first.added_at + (first.delay_before_send_sec : Int) := by omega
  have h4 : first.send_tries ≥ env.smssendmaxretrycount := htries
  simp only [hsib, hwin, h3, h4, send_unsuccessful_queue]
  cases rest <;> simp

/-- The calls of the failure handler on a non-empty queue. -/
theorem send_unsuccessful_calls (env : Env) (first : smstxbuf_t) (rest : Queue) :
    (smstxbuf_first_entry_send_unsuccessful env (first :: rest)).2 =
      [Call.smsrtbuf_find_entry first.dst_id first.msg] ++
      (match env.smsrtbuf_find first.dst_id first.msg with
        | none => []
        | some r => [Call.smsrtbuf_entry_send_unsuccessful r]) ++
      (if first.db_id ≠ 0 ∧ (rest.head? = none ∨ rest.head?.map (fun e => e.db_id) ≠ some first.db_id)
        then [Call.remotedb_msgqueue_updateentry first.db_id false] else []) := by
  simp [smstxbuf_first_entry_send_unsuccessful, smstxbuf_remove_first_entry]

/-! ## The new first entry after a failure -/

/-- C6 fails on the code. Two private messages are submitted at time 0, the second with a
delay of 200 seconds; the maximum retry count is 1. The first is sent at time 0. At time 1
`smstxbuf_process` finalizes the first as failed and, in the same call, passes the second
to the transmit primitive, 199 seconds before its `added_at + delay_before_send_sec`. -/
theorem new_first_entry_sent_before_delay :
    (run sample_consts [Op.add true 0 sample_args, Op.add true 0 sample_args_delayed,
        Op.process (sample_env 1) 0]).queue =
      [{ sample_entry with send_tries := 1 }, sample_entry_delayed] ∧
    sample_entry_delayed.added_at + (sample_entry_delayed.delay_before_send_sec : Int) = 200 ∧
    smstxbuf_process (sample_env 1) 1 [{ sample_entry with send_tries := 1 }, sample_entry_delayed] =
      ([{ sample_entry_delayed with send_tries := 1 }],
        [Call.smsrtbuf_find_entry 7 [104, 105], send_call sample_entry_delayed,
          Call.daemon_poll_setmaxtimeout]) := by
  decide

/-- C7 fails on the code for the maximum retry count 0. Two private messages are submitted
and never acknowledged. The first call of `smstxbuf_process` finalizes the first entry as
failed and, in the same call, transmits the second one, whose send tries then exceed the
maximum; the next call finalizes the second entry. It has been transmitted once, not at
most zero times. -/
theorem second_entry_sent_with_zero_retries :
    (run sample_consts [Op.add true 0 sample_args, Op.add true 0 sample_args_second,
        Op.process (sample_env 0) 0]).queue = [{ sample_entry_second with send_tries := 1 }] ∧
    (run sample_consts [Op.add true 0 sample_args, Op.add true 0 sample_args_second,
        Op.process (sample_env 0) 0, Op.process (sample_env 0) 1]).queue = [] ∧
    (run sample_consts [Op.add true 0 sample_args, Op.add true 0 sample_args_second,
        Op.process (sample_env 0) 0, Op.process (sample_env 0) 1]).calls.filter Call.is_send =
      [send_call sample_entry_second] := by
  decide


/-! ## Scenario C: two tries, then failure -/

/-- C8 (Scenario C). The maximum retry count is 2 and the data-packet TX buffer is empty.
One private message with delay 0 is submitted to the empty queue at time `t0` and never
acknowledged. `smstxbuf_process` runs at `t1`, the ack wait is started at `t2`,
`smstxbuf_process` runs at `t3` when that window has expired, the ack wait is started at
`t4`, and `smstxbuf_process` runs at `t5` when that window has expired. The calls made are,
in this order: the hint of the submission, the transmit call and the hint (first pass), the
transmit call and the hint (second pass), and the effects of the failure handler, once
(third pass): the round-trip lookup, the failure mark if an entry is found, the status
update to failed if the id is not zero. There are exactly two transmit calls and the
queue is empty at the end. -/
theorem scenario_two_tries_then_failed (c : Consts) (env : Env) (a : AddArgs) (msg : cstring)
    (t0 t1 t2 t3 t4 t5 : Int)
    (hmax : env.smssendmaxretrycount = 2) (hsib : env.data_packet_txbuf_pending = false)
    (hmsg : a.msg = some msg) (hpriv : a.calltype = dmr_call_type_t.Private)
    (hdelay : a.delay_before_send_sec = 0)
    (h1 : t0 ≤ t1) (h3 : t0 ≤ t3) (h5 : t0 ≤ t5)
    (hw3 : 10 ≤ t3 - t2) (hw5 : 10 ≤ t5 - t4) :
    (run c [Op.add true t0 a, Op.process env t1, Op.waiting_for_tms_ack_started t2,
        Op.process env t3, Op.waiting_for_tms_ack_started t4, Op.process env t5]).queue = [] ∧
    (run c [Op.add true t0 a, Op.process env t1, Op.waiting_for_tms_ack_started t2,
        Op.process env t3, Op.waiting_for_tms_ack_started t4, Op.process env t5]).calls =
      [Call.daemon_poll_setmaxtimeout,
        send_call (new_smstxbuf_entry c t0 a msg), Call.daemon_poll_setmaxtimeout,
        send_call (new_smstxbuf_entry c t0 a msg), Call.daemon_poll_setmaxtimeout,
        Call.smsrtbuf_find_entry a.dstid (strncpy msg c.DMRPACKET_MAX_FRAGMENTSIZE)] ++
      (match env.smsrtbuf_find a.dstid (strncpy msg c.DMRPACKET_MAX_FRAGMENTSIZE) with
        | none => []
        | some r => [Call.smsrtbuf_entry_send_unsuccessful r]) ++
      (if a.db_id % 4294967296 ≠ 0
        then [Call.remotedb_msgqueue_updateentry (a.db_id % 4294967296) false] else []) ∧
    ((run c [Op.add true t0 a, Op.process env t1, Op.waiting_for_tms_ack_started t2,
        Op.process env t3, Op.waiting_for_tms_ack_started t4,
        Op.process env t5]).calls.filter Call.is_send).length = 2 := by
  have hadd : smstxbuf_add c true t0 a [] =
      ([new_smstxbuf_entry c t0 a msg], [Call.daemon_poll_setmaxtimeout]) := by
    simp [smstxbuf_add, hmsg]
  have hp1 : smstxbuf_process env t1 [new_smstxbuf_entry c t0 a msg] =
      ([{ new_smstxbuf_entry c t0 a msg with send_tries := 1 }],
        [send_call (new_smstxbuf_entry c t0 a msg), Call.daemon_poll_setmaxtimeout]) := by
    rw [process_eq_send env t1 _ _ hsib (by simp [new_smstxbuf_entry])
      (by simp [new_smstxbuf_entry, hdelay]; omega) (by simp [new_smstxbuf_entry, hmax]),
      process_send_cons]
    simp [new_smstxbuf_entry, hpriv]
  have hp2 : smstxbuf_process env t3
      [{ new_smstxbuf_entry c t0 a msg with
          send_tries := 1, waiting_for_tms_ack_started_at := t2 }] =
      ([{ new_smstxbuf_entry c t0 a msg with
          send_tries := 2, waiting_for_tms_ack_started_at := t2 }],
        [send_call (new_smstxbuf_entry c t0 a msg), Call.daemon_poll_setmaxtimeout]) := by
    rw [process_eq_send env t3 _ _ hsib (by simp; omega)
      (by simp [new_smstxbuf_entry, hdelay]; omega) (by simp [hmax]),
      process_send_cons]
    simp [new_smstxbuf_entry, hpriv, send_call]
  have hp3 : smstxbuf_process env t5
      [{ new_smstxbuf_entry c t0 a msg with
          send_tries := 2, waiting_for_tms_ack_started_at := t4 }] =
      ([], [Call.smsrtbuf_find_entry a.dstid (strncpy msg c.DMRPACKET_MAX_FRAGMENTSIZE)] ++
        (match env.smsrtbuf_find a.dstid (strncpy msg c.DMRPACKET_MAX_FRAGMENTSIZE) with
          | none => []
          | some r => [Call.smsrtbuf_entry_send_unsuccessful r]) ++
        (if a.db_id % 4294967296 ≠ 0
          then [Call.remotedb_msgqueue_updateentry (a.db_id % 4294967296) false] else [])) := by
    rw [process_eq_fail env t5 _ _ hsib (by simp; omega)
      (by simp [new_smstxbuf_entry, hdelay]; omega) (by simp [hmax]),
      send_unsuccessful_calls]
    simp [new_smstxbuf_entry]
  have hrun : run c [Op.add true t0 a, Op.process env t1, Op.waiting_for_tms_ack_started t2,
        Op.process env t3, Op.waiting_for_tms_ack_started t4, Op.process env t5] =
      { queue := [],
        calls := [Call.daemon_poll_setmaxtimeout,
          send_call (new_smstxbuf_entry c t0 a msg), Call.daemon_poll_setmaxtimeout,
          send_call (new_smstxbuf_entry c t0 a msg), Call.daemon_poll_setmaxtimeout,
          Call.smsrtbuf_find_entry a.dstid (strncpy msg c.DMRPACKET_MAX_FRAGMENTSIZE)] ++
          (match env.smsrtbuf_find a.dstid (strncpy msg c.DMRPACKET_MAX_FRAGMENTSIZE) with
            | none => []
            | some r => [Call.smsrtbuf_entry_send_unsuccessful r]) ++
          (if a.db_id % 4294967296 ≠ 0
            then [Call.remotedb_msgqueue_updateentry (a.db_id % 4294967296) false] else []),
        submitted := [new_smstxbuf_entry c t0 a msg] } := by
    simp only [run, run_from, List.foldl, step, hadd, hp1,
      smstxbuf_first_entry_waiting_for_tms_ack_started, hp2, hp3]
    simp
  rw [hrun]
  refine ⟨rfl, rfl, ?_⟩
  simp only [List.filter_append]
  have hs := send_call_is_send (new_smstxbuf_entry c t0 a msg)
  clear hrun hp1 hp2 hp3 hadd
  generalize send_call (new_smstxbuf_entry c t0 a msg) = x at hs ⊢
  have e1 : Call.is_send Call.daemon_poll_setmaxtimeout = false := rfl
  have e2 : ∀ d m, Call.is_send (Call.smsrtbuf_find_entry d m) = false := fun _ _ => rfl
  have e3 : ∀ r, Call.is_send (Call.smsrtbuf_entry_send_unsuccessful r) = false := fun _ => rfl
  have e4 : ∀ d b, Call.is_send (Call.remotedb_msgqueue_updateentry d b) = false :=
    fun _ _ => rfl
  cases env.smsrtbuf_find a.dstid (strncpy msg c.DMRPACKET_MAX_FRAGMENTSIZE) <;>
    split_ifs <;> simp [List.filter_cons, hs, e1, e2, e3, e4]


/-- Scenario C for the message "hi" with the passes at times 0, 10 and 20. -/
theorem scenario_two_tries_then_failed_witness :
    (run sample_consts [Op.add true 0 sample_args, Op.process (sample_env 2) 0,
        Op.waiting_for_tms_ack_started 0, Op.process (sample_env 2) 10,
        Op.waiting_for_tms_ack_started 10, Op.process (sample_env 2) 20]).queue = [] ∧
    ((run sample_consts [Op.add true 0 sample_args, Op.process (sample_env 2) 0,
        Op.waiting_for_tms_ack_started 0, Op.process (sample_env 2) 10,
        Op.waiting_for_tms_ack_started 10,
        Op.process (sample_env 2) 20]).calls.filter Call.is_send).length = 2 :=
  have h := scenario_two_tries_then_failed sample_consts (sample_env 2) sample_args [104, 105]
    0 0 0 10 10 20 rfl rfl rfl rfl rfl (by decide) (by decide) (by decide) (by decide)
    (by decide)
  ⟨h.1, h.2.2⟩

/-! ## Unconfirmed messages -/

/-- C9, as the claim states it, fails. An AllCall entry at the head, with every condition
of the claim met, is transmitted but not removed: it stays at the head with one more send
try. And with the maximum retry count 0 a Group entry at the head, with every condition
of the claim met, is finalized as failed and removed without a transmit call. -/
theorem allcall_entry_is_kept :
    smstxbuf_process (sample_env 2) 0 [{ sample_entry with call_type := dmr_call_type_t.AllCall }] =
      ([{ sample_entry with call_type := dmr_call_type_t.AllCall, send_tries := 1 }],
        [send_call { sample_entry with call_type := dmr_call_type_t.AllCall },
          Call.daemon_poll_setmaxtimeout]) ∧
    smstxbuf_process (sample_env 0) 0 [{ sample_entry with call_type := dmr_call_type_t.Group }] =
      ([], [Call.smsrtbuf_find_entry 7 [104, 105]]) := by
  decide

/-- C9 (amended). With the data-packet TX buffer empty, no live ack window, the send delay
elapsed and the send tries of the first entry below the maximum retry count: if the call
type of the first entry is Group, one call of `smstxbuf_process` makes exactly one transmit
call, the one for that entry, signals the hint, and removes the entry, leaving the entries
behind it as they are (no send try is counted and no ack wait is recorded); if the call
type is not Group (Private or AllCall), the entry is transmitted and stays first with one
more send try. -/
theorem group_entry_sent_once_and_removed (env : Env) (now : Int) (first : smstxbuf_t)
    (rest : Queue)
    (hsib : env.data_packet_txbuf_pending = false)
    (hwin : ¬ (first.waiting_for_tms_ack_started_at ≠ 0 ∧
      now - first.waiting_for_tms_ack_started_at < 10))
    (hdelay : first.added_at + (first.delay_before_send_sec : Int) ≤ now)
    (htries : first.send_tries < env.smssendmaxretrycount) :
    (first.call_type = dmr_call_type_t.Group →
      smstxbuf_process env now (first :: rest) =
        (rest, [send_call first, Call.daemon_poll_setmaxtimeout])) ∧
    (first.call_type ≠ dmr_call_type_t.Group →
      smstxbuf_process env now (first :: rest) =
        ({ first with selective_ack_tries := 0, send_tries := first.send_tries + 1 } :: rest,
          [send_call first, Call.daemon_poll_setmaxtimeout])) := by
  rw [process_eq_send env now first rest hsib hwin hdelay htries, process_send_cons]
  constructor
  · intro hg; simp [hg]
  · intro hg; simp [hg]

/-- A group message at the head is sent once and removed; the entry behind it stays. -/
theorem group_entry_sent_once_and_removed_witness :
    smstxbuf_process (sample_env 2) 0
        [{ sample_entry with call_type := dmr_call_type_t.Group }, sample_entry_second] =
      ([sample_entry_second],
        [send_call { sample_entry with call_type := dmr_call_type_t.Group },
          Call.daemon_poll_setmaxtimeout]) :=
  (group_entry_sent_once_and_removed (sample_env 2) 0
    { sample_entry with call_type := dmr_call_type_t.Group } [sample_entry_second]
    rfl (by decide) (by decide) (by decide)).1 rfl

/-! ## Retry exhaustion -/

/-- C10, as the claim states it, fails. The first entry has used up its send tries (1 of
1) and a second entry waits behind it: the call of `smstxbuf_process` that finalizes the
first entry as failed goes on to transmit the second entry in the same call. -/
theorem failure_followed_by_send_in_same_call :
    smstxbuf_process (sample_env 1) 1 [{ sample_entry with send_tries := 1 }, sample_entry_second] =
      ([{ sample_entry_second with send_tries := 1 }],
        [Call.smsrtbuf_find_entry 7 [104, 105], send_call sample_entry_second,
          Call.daemon_poll_setmaxtimeout]) := by
  decide

/-- C10 (amended). If the send tries of the first entry have reached the maximum retry
count and no earlier guard applies, `smstxbuf_process` runs the failure handler for the
first entry, once and before anything else, and that handler makes no transmit call; the
queue that is left holds none but the entries behind the failed one; if the failed entry
was the only one, the call makes no transmit call and leaves the queue empty; and a
transmit call made in that call is the one for the entry behind the failed one, which is
the first entry when it is made. -/
theorem exhausted_entry_is_failed_first (env : Env) (now : Int) (first : smstxbuf_t)
    (rest : Queue)
    (hsib : env.data_packet_txbuf_pending = false)
    (hwin : ¬ (first.waiting_for_tms_ack_started_at ≠ 0 ∧
      now - first.waiting_for_tms_ack_started_at < 10))
    (hdelay : first.added_at + (first.delay_before_send_sec : Int) ≤ now)
    (htries : env.smssendmaxretrycount ≤ first.send_tries) :
    (∃ more, (smstxbuf_process env now (first :: rest)).2 =
        (smstxbuf_first_entry_send_unsuccessful env (first :: rest)).2 ++ more ∧
      (smstxbuf_process env now (first :: rest)).1 =
        (smstxbuf_process_send (smstxbuf_first_entry_send_unsuccessful env (first :: rest)).1).1) ∧
    (smstxbuf_first_entry_send_unsuccessful env (first :: rest)).1 = rest ∧
    (smstxbuf_first_entry_send_unsuccessful env (first :: rest)).2.filter Call.is_send = [] ∧
    (rest = [] → smstxbuf_process env now (first :: rest) =
      ([], (smstxbuf_first_entry_send_unsuccessful env (first :: rest)).2)) ∧
    ((smstxbuf_process env now (first :: rest)).2.filter Call.is_send).length ≤ 1 ∧
    (∀ call, call ∈ (smstxbuf_process env now (first :: rest)).2 → call.is_send = true →
      ∃ second more, rest = second :: more ∧ call = send_call second) := by
  have hq : (smstxbuf_first_entry_send_unsuccessful env (first :: rest)).1 = rest := by
    rw [send_unsuccessful_queue]; rfl
  have hp := process_eq_fail env now first rest hsib hwin hdelay htries
  refine ⟨?_, hq, send_unsuccessful_no_send env _, ?_, process_send_count env now _, ?_⟩
  · rw [hp, hq]
    cases rest with
    | nil => exact ⟨[], by simp, by simp [smstxbuf_process_send]⟩
    | cons second more => exact ⟨_, rfl, rfl⟩
  · intro hr; subst hr; rw [hp]
  · intro call hc hs
    obtain ⟨e, r, hcall, ⟨h, hlt⟩ | ⟨failed, h, _⟩⟩ :=
      process_send_is_first env now _ call hc hs
    · have he : first = e := (List.cons.inj h).1
      subst he
      omega
    · exact ⟨e, r, (List.cons.inj h).2, hcall⟩

/-- A single entry with all send tries used up is finalized as failed, nothing is sent. -/
theorem exhausted_entry_is_failed_first_witness :
    smstxbuf_process (sample_env 1) 1 [{ sample_entry with send_tries := 1 }] =
      ([], (smstxbuf_first_entry_send_unsuccessful (sample_env 1)
        [{ sample_entry with send_tries := 1 }]).2) :=
  (exhausted_entry_is_failed_first (sample_env 1) 1 { sample_entry with send_tries := 1 } []
    rfl (by decide) (by decide) (by decide)).2.2.2.1 rfl

/-! ## The success handler -/

/-- The calls of the success handler on a non-empty queue: the status update, the ack
reply, the round-trip lookup and the success mark. -/
theorem sent_successfully_calls (env : Env) (repeater : Option repeater_t)
    (first : smstxbuf_t) (rest : Queue) :
    (smstxbuf_first_entry_sent_successfully env repeater (first :: rest)).2 =
      (if first.db_id ≠ 0 then [Call.remotedb_msgqueue_updateentry first.db_id true] else []) ++
      ack_reply_calls first repeater ++
      [Call.smsrtbuf_find_entry first.dst_id first.msg] ++
      (match env.smsrtbuf_find first.dst_id first.msg with
        | none => []
        | some r => [Call.smsrtbuf_entry_sent_successfully r]) := by
  rfl

/-- The ack reply part of the success handler makes at most one call, an ack reply. -/
theorem ack_reply_calls_cases (first : smstxbuf_t) (repeater : Option repeater_t) :
    ack_reply_calls first repeater = [] ∨
    ∃ am r, first.aprs_msg = some am ∧ repeater = some r ∧
      ack_reply_calls first repeater =
        [Call.aprs_add_to_queue_msg am.src_callsign am.dst_callsign
          (aprs_ack_msg am.ackpart) r.callsign] := by
  unfold ack_reply_calls
  cases ha : first.aprs_msg with
  | none => left; rfl
  | some am =>
    by_cases h1 : am.ackpart.head? = none ∨ am.ackpart.head? = some 0
    · left; simp only [if_pos h1]
    · cases repeater with
      | none => left; simp only [if_neg h1]
      | some r =>
        by_cases h2 : r.callsign.head? = none ∨ r.callsign.head? = some 0
        · left; simp only [if_neg h1, if_pos h2]
        · right; exact ⟨am, r, rfl, rfl, by simp only [if_neg h1, if_neg h2]⟩


theorem c_str_eq_nil_iff (s : cstring) :
    c_str s = [] ↔ (s.head? = none ∨ s.head? = some 0) := by
  unfold c_str
  cases s with
  | nil => simp
  | cons x xs =>
    by_cases hx : x = 0
    · simp [List.takeWhile_cons, hx]
    · simp [List.takeWhile_cons, hx]

theorem ack_reply_calls_filter (first : smstxbuf_t) (repeater : Option repeater_t) :
    (ack_reply_calls first repeater).filter Call.is_status_update = [] ∧
    (ack_reply_calls first repeater).filter Call.is_lookup = [] ∧
    (ack_reply_calls first repeater).filter Call.is_mark = [] ∧
    (ack_reply_calls first repeater).filter Call.is_ack_reply = ack_reply_calls first repeater ∧
    (ack_reply_calls first repeater).filter (fun call => !call.is_ack_reply) = [] := by
  rcases ack_reply_calls_cases first repeater with h | ⟨am, r, _, _, h⟩ <;> rw [h] <;>
    simp [List.filter_cons, Call.is_status_update, Call.is_lookup, Call.is_mark,
      Call.is_ack_reply]

/-- C11 (Scenario A, success handler). On a non-empty queue
`smstxbuf_first_entry_sent_successfully` leaves exactly the entries behind the first one,
unchanged and in order (nothing, for a one-entry queue); its calls of the status store are
the single update (db_id, succeeded) if the db_id of the first entry is not zero, and none
otherwise; it makes exactly one round-trip lookup, by the dst_id and msg of the first
entry; and its marks of a round-trip entry are the single success mark of the entry
found, and none if no entry is found. -/
theorem success_handler_effects (env : Env) (repeater : Option repeater_t)
    (first : smstxbuf_t) (rest : Queue) :
    (smstxbuf_first_entry_sent_successfully env repeater (first :: rest)).1 = rest ∧
    (smstxbuf_first_entry_sent_successfully env repeater (first :: rest)).2.filter
        Call.is_status_update =
      (if first.db_id ≠ 0 then [Call.remotedb_msgqueue_updateentry first.db_id true] else []) ∧
    (smstxbuf_first_entry_sent_successfully env repeater (first :: rest)).2.filter
        Call.is_lookup = [Call.smsrtbuf_find_entry first.dst_id first.msg] ∧
    (smstxbuf_first_entry_sent_successfully env repeater (first :: rest)).2.filter
        Call.is_mark =
      (match env.smsrtbuf_find first.dst_id first.msg with
        | none => []
        | some r => [Call.smsrtbuf_entry_sent_successfully r]) := by
  obtain ⟨h1, h2, h3, _, _⟩ := ack_reply_calls_filter first repeater
  refine ⟨rfl, ?_, ?_, ?_⟩ <;>
    rw [sent_successfully_calls] <;>
    simp only [List.filter_append, h1, h2, h3] <;>
    cases env.smsrtbuf_find first.dst_id first.msg <;>
    split_ifs <;>
    simp [List.filter_cons, Call.is_status_update, Call.is_lookup, Call.is_mark]


/-- C12, as the claim states it, fails. The first entry carries origin data with the
token "7" and the repeater argument is not NULL, but the callsign of that repeater is
empty: no reply is handed to the ack emitter (the status update, the lookup and the
removal are performed). -/
theorem no_ack_reply_without_callsign :
    smstxbuf_first_entry_sent_successfully (sample_env 2) (some { callsign := [] })
        [sample_entry_aprs] =
      ([], [Call.remotedb_msgqueue_updateentry 5 true,
        Call.smsrtbuf_find_entry 7 [104, 105]]) := by
  decide

/-- C12 (amended). On a non-empty queue, for `smstxbuf_first_entry_sent_successfully`:
if the first entry carries origin data with a non-empty acknowledgment token and the
repeater argument is not NULL and has a non-empty callsign, exactly one reply is handed to
the ack emitter, with the body "ack", the token, "}" and with the callsign of the
repeater; if the repeater argument is NULL or its callsign is empty, none is; if the first
entry has no origin data or an empty token, none is. In every case the other calls are
the same (the status update if the db_id is not zero, the round-trip lookup, the success
mark if an entry is found) and the first entry is removed. -/
theorem ack_reply_is_optional (env : Env) (repeater : Option repeater_t)
    (first : smstxbuf_t) (rest : Queue) :
    (∀ am r, first.aprs_msg = some am → c_str am.ackpart ≠ [] →
      repeater = some r → c_str r.callsign ≠ [] →
      (smstxbuf_first_entry_sent_successfully env repeater (first :: rest)).2.filter
          Call.is_ack_reply =
        [Call.aprs_add_to_queue_msg am.src_callsign am.dst_callsign
          ([97, 99, 107] ++ c_str am.ackpart ++ [125]) r.callsign]) ∧
    ((repeater = none ∨ ∃ r, repeater = some r ∧ c_str r.callsign = []) →
      (smstxbuf_first_entry_sent_successfully env repeater (first :: rest)).2.filter
          Call.is_ack_reply = []) ∧
    ((first.aprs_msg = none ∨ ∃ am, first.aprs_msg = some am ∧ c_str am.ackpart = []) →
      (smstxbuf_first_entry_sent_successfully env repeater (first :: rest)).2.filter
          Call.is_ack_reply = []) ∧
    (smstxbuf_first_entry_sent_successfully env repeater (first :: rest)).1 = rest ∧
    (smstxbuf_first_entry_sent_successfully env repeater (first :: rest)).2.filter
        (fun call => !call.is_ack_reply) =
      (if first.db_id ≠ 0 then [Call.remotedb_msgqueue_updateentry first.db_id true] else []) ++
      [Call.smsrtbuf_find_entry first.dst_id first.msg] ++
      (match env.smsrtbuf_find first.dst_id first.msg with
        | none => []
        | some r => [Call.smsrtbuf_entry_sent_successfully r]) := by
  obtain ⟨_, _, _, h4, h5⟩ := ack_reply_calls_filter first repeater
  have hall : (smstxbuf_first_entry_sent_successfully env repeater (first :: rest)).2.filter
      Call.is_ack_reply = ack_reply_calls first repeater := by
    rw [sent_successfully_calls]
    simp only [List.filter_append, h4]
    cases env.smsrtbuf_find first.dst_id first.msg <;> split_ifs <;>
      simp [List.filter_cons, Call.is_ack_reply]
  refine ⟨?_, ?_, ?_, rfl, ?_⟩
  · intro am r ha ht hr hc
    rw [hall]
    rw [Ne, c_str_eq_nil_iff] at ht hc
    subst hr
    unfold ack_reply_calls
    rw [ha]
    simp only [if_neg ht, if_neg hc, aprs_ack_msg]
  · intro h
    rw [hall]
    unfold ack_reply_calls
    cases ha : first.aprs_msg with
    | none => rfl
    | some am =>
      by_cases ht : am.ackpart.head? = none ∨ am.ackpart.head? = some 0
      · simp only [if_pos ht]
      · rcases h with h | ⟨r, h, hc⟩
        · subst h; simp only [if_neg ht]
        · subst h
          rw [c_str_eq_nil_iff] at hc
          simp only [if_neg ht, if_pos hc]
  · intro h
    rw [hall]
    unfold ack_reply_calls
    rcases h with h | ⟨am, h, ht⟩
    · rw [h]
    · rw [h]
      rw [c_str_eq_nil_iff] at ht
      simp only [if_pos ht]
  · rw [sent_successfully_calls]
    simp only [List.filter_append, h5]
    cases env.smsrtbuf_find first.dst_id first.msg <;> split_ifs <;>
      simp [List.filter_cons, Call.is_ack_reply]

/-- With the repeater "R" the token "7" is acknowledged with the body "ack7}". -/
theorem ack_reply_is_optional_witness :
    (smstxbuf_first_entry_sent_successfully (sample_env_found 2) (some sample_repeater)
        [sample_entry_aprs, sample_entry_second]).2.filter Call.is_ack_reply =
      [Call.aprs_add_to_queue_msg [65] [66] [97, 99, 107, 55, 125] [82]] :=
  (ack_reply_is_optional (sample_env_found 2) (some sample_repeater) sample_entry_aprs
    [sample_entry_second]).1 sample_aprs sample_repeater rfl (by decide) rfl (by decide)

/-! ## The failure handler -/

/-- C13 (failure handler). On a non-empty queue `smstxbuf_first_entry_send_unsuccessful`
leaves exactly the entries behind the first one; it makes one round-trip lookup, by the
dst_id and msg of the first entry, then marks the entry found (if any) as failed, and
then makes at most one call of the status store; the update (db_id, failed) for the db_id
the first entry had is made if and only if that db_id is not zero and the queue is now
empty or the db_id of its new first entry differs. -/
theorem failure_handler_effects (env : Env) (first : smstxbuf_t) (rest : Queue) :
    (smstxbuf_first_entry_send_unsuccessful env (first :: rest)).1 = rest ∧
    (smstxbuf_first_entry_send_unsuccessful env (first :: rest)).2 =
      [Call.smsrtbuf_find_entry first.dst_id first.msg] ++
      (smstxbuf_first_entry_send_unsuccessful env (first :: rest)).2.filter Call.is_mark ++
      (smstxbuf_first_entry_send_unsuccessful env (first :: rest)).2.filter
        Call.is_status_update ∧
    (smstxbuf_first_entry_send_unsuccessful env (first :: rest)).2.filter Call.is_mark =
      (match env.smsrtbuf_find first.dst_id first.msg with
        | none => []
        | some r => [Call.smsrtbuf_entry_send_unsuccessful r]) ∧
    ((smstxbuf_first_entry_send_unsuccessful env (first :: rest)).2.filter
        Call.is_status_update = [] ∨
      (smstxbuf_first_entry_send_unsuccessful env (first :: rest)).2.filter
        Call.is_status_update = [Call.remotedb_msgqueue_updateentry first.db_id false]) ∧
    (Call.remotedb_msgqueue_updateentry first.db_id false ∈
        (smstxbuf_first_entry_send_unsuccessful env (first :: rest)).2 ↔
      first.db_id ≠ 0 ∧
        (rest = [] ∨ ∃ head more, rest = head :: more ∧ head.db_id ≠ first.db_id)) := by
  have hcond : (first.db_id ≠ 0 ∧
      (rest.head? = none ∨ rest.head?.map (fun e => e.db_id) ≠ some first.db_id)) ↔
      (first.db_id ≠ 0 ∧
        (rest = [] ∨ ∃ head more, rest = head :: more ∧ head.db_id ≠ first.db_id)) := by
    cases rest with
    | nil => simp
    | cons head more => simp
  have hq : (smstxbuf_first_entry_send_unsuccessful env (first :: rest)).1 = rest := by
    rw [send_unsuccessful_queue]; rfl
  rw [send_unsuccessful_calls]
  refine ⟨hq, ?_, ?_, ?_, ?_⟩
  · cases env.smsrtbuf_find first.dst_id first.msg <;> split_ifs <;>
      simp [List.filter_cons, Call.is_mark, Call.is_status_update]
  · cases env.smsrtbuf_find first.dst_id first.msg <;> split_ifs <;>
      simp [List.filter_cons, Call.is_mark, Call.is_status_update]
  · cases env.smsrtbuf_find first.dst_id first.msg <;> split_ifs <;>
      simp [List.filter_cons, Call.is_mark, Call.is_status_update]
  · by_cases h : first.db_id ≠ 0 ∧
        (rest.head? = none ∨ rest.head?.map (fun e => e.db_id) ≠ some first.db_id)
    · rw [if_pos h]
      exact ⟨fun _ => hcond.mp h, fun _ => by simp⟩
    · rw [if_neg h]
      refine ⟨fun hm => ?_, fun hc => absurd (hcond.mpr hc) h⟩
      exfalso
      cases hf : env.smsrtbuf_find first.dst_id first.msg <;> rw [hf] at hm <;> simp at hm

/-! ## Entries that share a db_id -/

/-- C14, as the claim states it, fails. Three messages with the db_ids 5, 6 and 5 are
submitted and the first is sent once (maximum retry count 1). The failure handler then
removes the first entry and, since the new first entry has the db_id 6, updates the
status store to failed for the id 5, while the entry with the db_id 5 behind the new
first entry is still in the queue. -/
theorem failed_update_with_fragment_queued :
    (run sample_consts [Op.add true 0 { sample_args with db_id := 5 },
        Op.add true 0 { sample_args_second with db_id := 6 },
        Op.add true 0 { sample_args_delayed with db_id := 5 },
        Op.process (sample_env 1) 0]).queue =
      [{ sample_entry with db_id := 5, send_tries := 1 },
        { sample_entry_second with db_id := 6 }, { sample_entry_delayed with db_id := 5 }] ∧
    smstxbuf_first_entry_send_unsuccessful (sample_env 1)
        [{ sample_entry with db_id := 5, send_tries := 1 },
          { sample_entry_second with db_id := 6 }, { sample_entry_delayed with db_id := 5 }] =
      ([{ sample_entry_second with db_id := 6 }, { sample_entry_delayed with db_id := 5 }],
        [Call.smsrtbuf_find_entry 7 [104, 105], Call.remotedb_msgqueue_updateentry 5 false]) := by
  decide

theorem db_ids_adjacent_head {first : smstxbuf_t} {rest : Queue}
    (h : db_ids_adjacent (first :: rest) = true) :
    (∀ e ∈ rest, e.db_id ≠ first.db_id) ∨
      rest.head?.map (fun x => x.db_id) = some first.db_id := by
  simp only [db_ids_adjacent, Bool.and_eq_true, Bool.or_eq_true, List.all_eq_true,
    decide_eq_true_eq] at h
  exact h.1

/-- C14 (amended). Whenever `smstxbuf_first_entry_send_unsuccessful` updates the status
store, the update is the one to failed for the db_id the removed first entry had, that
db_id is not zero, and the new first entry of the queue (if there is one) does not have
that db_id; if the entries that share a db_id stand next to each other in the queue, no
entry that remains in the queue has that db_id. -/
theorem failed_update_new_first_differs (env : Env) (first : smstxbuf_t) (rest : Queue)
    (id : Nat) (success : Bool)
    (hupd : Call.remotedb_msgqueue_updateentry id success ∈
      (smstxbuf_first_entry_send_unsuccessful env (first :: rest)).2) :
    id = first.db_id ∧ success = false ∧ id ≠ 0 ∧
    (smstxbuf_first_entry_send_unsuccessful env (first :: rest)).1 = rest ∧
    (∀ head more, rest = head :: more → head.db_id ≠ id) ∧
    (db_ids_adjacent (first :: rest) = true → ∀ e ∈ rest, e.db_id ≠ id) := by
  have hq : (smstxbuf_first_entry_send_unsuccessful env (first :: rest)).1 = rest := by
    rw [send_unsuccessful_queue]; rfl
  rw [send_unsuccessful_calls] at hupd
  by_cases h : first.db_id ≠ 0 ∧
      (rest.head? = none ∨ rest.head?.map (fun e => e.db_id) ≠ some first.db_id)
  · rw [if_pos h] at hupd
    have hid : id = first.db_id ∧ success = false := by
      cases hf : env.smsrtbuf_find first.dst_id first.msg <;> rw [hf] at hupd <;>
        simpa using hupd
    obtain ⟨hid, hs⟩ := hid
    subst hid
    have hnew : ∀ head more, rest = head :: more → head.db_id ≠ first.db_id := by
      intro head more hr
      subst hr
      rcases h.2 with h2 | h2
      · simp at h2
      · simpa using h2
    refine ⟨rfl, hs, h.1, hq, hnew, ?_⟩
    intro hadj e he
    rcases db_ids_adjacent_head hadj with h3 | h3
    · exact h3 e he
    · cases rest with
      | nil => simp at he
      | cons head more =>
        exfalso
        exact hnew head more rfl (by simpa using h3)
  · rw [if_neg h] at hupd
    exfalso
    cases hf : env.smsrtbuf_find first.dst_id first.msg <;> rw [hf] at hupd <;> simp at hupd

/-- With the db_ids 5, 6, 6 in the queue the failure of the first entry is reported and
no entry with the db_id 5 remains. -/
theorem failed_update_new_first_differs_witness :
    Call.remotedb_msgqueue_updateentry 5 false ∈
      (smstxbuf_first_entry_send_unsuccessful (sample_env 1)
        [{ sample_entry with db_id := 5 }, { sample_entry_second with db_id := 6 },
          { sample_entry_delayed with db_id := 6 }]).2 ∧
    ({ sample_entry_delayed with db_id := 6 } : smstxbuf_t).db_id ≠ 5 :=
  ⟨by decide,
   (failed_update_new_first_differs (sample_env 1) { sample_entry with db_id := 5 }
    [{ sample_entry_second with db_id := 6 }, { sample_entry_delayed with db_id := 6 }]
    5 false (by decide)).2.2.2.2.2 (by decide) { sample_entry_delayed with db_id := 6 }
    (by decide)⟩

/-! ## Send tries and the maximum retry count -/

/-- C15 fails on the code for the maximum retry count 0. Two private messages are
submitted; the call of `smstxbuf_process` finalizes the first as failed and, in the same
call, sends the second without testing its send tries against the maximum: the queue
then holds an entry with 1 send try, more than the maximum 0. -/
theorem send_tries_above_zero_maximum :
    (sample_env 0).smssendmaxretrycount = 0 ∧
    (run sample_consts [Op.add true 0 sample_args, Op.add true 0 sample_args_second,
        Op.process (sample_env 0) 0]).queue.map (fun e => e.send_tries) = [1] := by
  decide

theorem tries_inv_tail {n : Nat} {q : Queue} (h : TriesInv n q) : TriesInv n q.tail := by
  cases q with
  | nil => exact h
  | cons first rest =>
    refine ⟨fun e he => ?_, fun e he => ?_⟩
    · rw [h.2 e he]; exact Nat.zero_le n
    · exact h.2 e (List.mem_of_mem_tail he)

theorem tries_inv_process_send {n : Nat} {q : Queue} (h : TriesInv n q)
    (hlt : ∀ first rest, q = first :: rest → first.send_tries < n) :
    TriesInv n (smstxbuf_process_send q).1 := by
  cases q with
  | nil => exact h
  | cons first rest =>
    rw [process_send_cons]
    by_cases hg : first.call_type = dmr_call_type_t.Group
    · simp only [hg, if_true]
      exact tries_inv_tail h
    · simp only [hg, if_false]
      refine ⟨fun e he => ?_, fun e he => h.2 e he⟩
      rcases List.mem_cons.mp he with he | he
      · subst he
        exact hlt first rest rfl
      · exact h.1 e (List.mem_cons_of_mem _ he)

theorem tries_inv_process {n : Nat} {q : Queue} (env : Env) (now : Int) (hn : 1 ≤ n)
    (hmax : env.smssendmaxretrycount = n) (h : TriesInv n q) :
    TriesInv n (smstxbuf_process env now q).1 := by
  cases q with
  | nil => exact h
  | cons first rest =>
    rcases process_cons_cases env now first rest with hp | ⟨hlt, hp⟩ | ⟨_, _, hp⟩ | ⟨_, _, hp⟩
    · rw [hp]; exact h
    · rw [hp]
      refine tries_inv_process_send h (fun f r hq => ?_)
      have hf : first = f := (List.cons.inj hq).1
      subst hf
      omega
    · rw [hp]; exact ⟨fun e he => by simp at he, fun e he => by simp at he⟩
    · rw [hp]
      refine tries_inv_process_send (tries_inv_tail h) (fun f r hq => ?_)
      have hz : f.send_tries = 0 := h.2 f (by simp [hq])
      omega

theorem tries_inv_add {n : Nat} {q : Queue} (c : Consts) (alloc_ok : Bool) (now : Int)
    (a : AddArgs) (h : TriesInv n q) : TriesInv n (smstxbuf_add c alloc_ok now a q).1 := by
  rcases smstxbuf_add_cases c alloc_ok now a q with hp | ⟨msg, _, hp⟩
  · rw [hp]; exact h
  · rw [hp]
    refine ⟨fun e he => ?_, fun e he => ?_⟩
    · rcases List.mem_append.mp he with he | he
      · exact h.1 e he
      · simp only [List.mem_singleton] at he
        subst he
        exact Nat.zero_le n
    · cases q with
      | nil => simp at he
      | cons first rest =>
        simp only [List.cons_append, List.tail_cons, List.mem_append,
          List.mem_singleton] at he
        rcases he with he | he
        · exact h.2 e he
        · subst he; rfl

/-- For a maximum retry count of at least 1 that stays the same during the run, every
entry of a queue reached from the empty queue has at most that many send tries. -/
theorem send_tries_bounded (c : Consts) (n : Nat) (hn : 1 ≤ n) (ops : List Op)
    (hfix : fixed_maximum n ops) : TriesInv n (run c ops).queue := by
  have hgen : ∀ (ops : List Op) (s : Run), fixed_maximum n ops → TriesInv n s.queue →
      TriesInv n (run_from c s ops).queue := by
    intro ops
    induction ops with
    | nil => intro s _ hs; exact hs
    | cons op ops ih =>
      intro s hf hs
      refine ih (step c s op) (fun env now hm => hf env now (List.mem_cons_of_mem _ hm)) ?_
      cases op with
      | add alloc_ok now a => exact tries_inv_add c alloc_ok now a hs
      | process env now =>
        exact tries_inv_process env now hn (hf env now (List.mem_cons_self _ _)) hs
      | waiting_for_tms_ack_started now =>
        simp only [step]
        cases hq : s.queue with
        | nil => exact ⟨fun e he => by simp [smstxbuf_first_entry_waiting_for_tms_ack_started] at he,
            fun e he => by simp [smstxbuf_first_entry_waiting_for_tms_ack_started] at he⟩
        | cons first rest =>
          rw [hq] at hs
          refine ⟨fun e he => ?_, fun e he => hs.2 e he⟩
          rcases List.mem_cons.mp he with he | he
          · subst he
            exact hs.1 first (List.mem_cons_self _ _)
          · exact hs.1 e (List.mem_cons_of_mem _ he)
      | sent_successfully env repeater =>
        simp only [step, sent_successfully_queue]
        exact tries_inv_tail hs
      | deinit => exact ⟨fun e he => by simp [step, smstxbuf_deinit] at he,
          fun e he => by simp [step, smstxbuf_deinit] at he⟩
  exact hgen ops ⟨[], [], []⟩ hfix ⟨fun e he => by simp at he, fun e he => by simp at he⟩

/-! ## The in-flight slot -/

theorem only_first_waits_tail {q : Queue} (h : OnlyFirstWaits q) : OnlyFirstWaits q.tail :=
  fun e he => h e (List.mem_of_mem_tail he)

theorem only_first_waits_process_send {q : Queue} (h : OnlyFirstWaits q) :
    OnlyFirstWaits (smstxbuf_process_send q).1 := by
  cases q with
  | nil => exact h
  | cons first rest =>
    rw [process_send_cons]
    by_cases hg : first.call_type = dmr_call_type_t.Group
    · simp only [hg, if_true]
      exact only_first_waits_tail h
    · simp only [hg, if_false]
      exact h

theorem only_first_waits_step (c : Consts) (s : Run) (op : Op) (h : OnlyFirstWaits s.queue) :
    OnlyFirstWaits (step c s op).queue := by
  cases op with
  | add alloc_ok now a =>
    simp only [step]
    rcases smstxbuf_add_cases c alloc_ok now a s.queue with hp | ⟨msg, _, hp⟩
    · rw [hp]; exact h
    · rw [hp]
      intro e he
      cases hq : s.queue with
      | nil => rw [hq] at he; simp at he
      | cons first rest =>
        rw [hq] at he h
        simp only [List.cons_append, List.tail_cons, List.mem_append,
          List.mem_singleton] at he
        rcases he with he | he
        · exact h e he
        · subst he; rfl
  | process env now =>
    simp only [step]
    cases hq : s.queue with
    | nil => intro e he; simp [smstxbuf_process] at he
    | cons first rest =>
      rw [hq] at h
      rcases process_cons_cases env now first rest with hp | ⟨_, hp⟩ | ⟨_, _, hp⟩ | ⟨_, _, hp⟩
      · rw [hp]; exact h
      · rw [hp]; exact only_first_waits_process_send h
      · rw [hp]; intro e he; simp at he
      · rw [hp]; exact only_first_waits_process_send (only_first_waits_tail h)
  | waiting_for_tms_ack_started now =>
    simp only [step]
    cases hq : s.queue with
    | nil => intro e he; simp [smstxbuf_first_entry_waiting_for_tms_ack_started] at he
    | cons first rest => rw [hq] at h; exact h
  | sent_successfully env repeater =>
    simp only [step, sent_successfully_queue]
    exact only_first_waits_tail h
  | deinit => intro e he; simp [step, smstxbuf_deinit] at he

theorem only_first_waits_run_from (c : Consts) (ops : List Op) (s : Run)
    (h : OnlyFirstWaits s.queue) : OnlyFirstWaits (run_from c s ops).queue := by
  induction ops generalizing s with
  | nil => exact h
  | cons op ops ih => exact ih _ (only_first_waits_step c s op h)

/-- C16 (in-flight slot). In every state reached from the empty queue by calls of
`smstxbuf_add`, `smstxbuf_process`, `smstxbuf_first_entry_waiting_for_tms_ack_started`,
`smstxbuf_first_entry_sent_successfully` and `smstxbuf_deinit`, no entry behind the first
one has `waiting_for_tms_ack_started_at` set, so at most one entry of the queue has it
set. -/
theorem in_flight_slot (c : Consts) (ops : List Op) :
    (∀ e ∈ (run c ops).queue.tail, e.waiting_for_tms_ack_started_at = 0) ∧
    ((run c ops).queue.filter
      (fun e => decide (e.waiting_for_tms_ack_started_at ≠ 0))).length ≤ 1 := by
  have h : OnlyFirstWaits (run c ops).queue :=
    only_first_waits_run_from c ops ⟨[], [], []⟩ (fun e he => by simp at he)
  refine ⟨h, ?_⟩
  cases hq : (run c ops).queue with
  | nil => simp
  | cons first rest =>
    rw [hq] at h
    have hr : rest.filter (fun e => decide (e.waiting_for_tms_ack_started_at ≠ 0)) = [] := by
      rw [List.filter_eq_nil_iff]
      intro e he
      simp [h e he]
    rw [List.filter_cons, hr]
    split_ifs <;> simp


/-! ## smstxbuf_deinit -/

theorem deinit_loop_nil (q : Queue) : smstxbuf_deinit_loop q = [] := by
  induction q with
  | nil => rfl
  | cons first rest ih => simpa [smstxbuf_deinit_loop] using ih

/-- C17 (idempotent drain). For every queue `smstxbuf_deinit` leaves the empty queue: the
loop ends with the first-entry pointer NULL and the last-entry pointer is set to NULL; on
the empty queue it changes nothing; applied twice it gives the same state as applied
once; and a call of `smstxbuf_add` after it that has a body and gets its memory yields
the queue of exactly the new entry, with the scheduling hint. -/
theorem deinit_idempotent (q : Queue) :
    smstxbuf_deinit q = [] ∧
    smstxbuf_deinit_pointers q (smstxbuf_last_entry q) = ([], none) ∧
    smstxbuf_first_entry (smstxbuf_deinit q) = none ∧
    smstxbuf_last_entry (smstxbuf_deinit q) = none ∧
    smstxbuf_deinit [] = [] ∧
    smstxbuf_deinit_pointers [] none = ([], none) ∧
    smstxbuf_deinit (smstxbuf_deinit q) = smstxbuf_deinit q ∧
    (∀ (c : Consts) (now : Int) (a : AddArgs) (msg : cstring), a.msg = some msg →
      smstxbuf_add c true now a (smstxbuf_deinit q) =
        ([new_smstxbuf_entry c now a msg], [Call.daemon_poll_setmaxtimeout])) := by
  refine ⟨rfl, ?_, rfl, rfl, rfl, rfl, rfl, ?_⟩
  · simp [smstxbuf_deinit_pointers, deinit_loop_nil]
  · intro c now a msg hm
    simp [smstxbuf_deinit, smstxbuf_add, hm]

/-- After the drain of a two-entry queue the submission "hi" gives a one-entry queue. -/
theorem deinit_idempotent_witness :
    smstxbuf_add sample_consts true 0 sample_args
        (smstxbuf_deinit [sample_entry_second, sample_entry]) =
      ([sample_entry], [Call.daemon_poll_setmaxtimeout]) :=
  (deinit_idempotent [sample_entry_second, sample_entry]).2.2.2.2.2.2.2
    sample_consts 0 sample_args [104, 105] rfl

/-! ## The start of the ack wait -/

/-- C18 (frame of the ack wait start). On a non-empty queue
`smstxbuf_first_entry_waiting_for_tms_ack_started` sets `waiting_for_tms_ack_started_at`
of the first entry to the current time; every other field of the first entry, every
entry behind it, the order and the length of the queue stay as they are. On the empty
queue it changes nothing. -/
theorem ack_wait_start_frame (now : Int) (first : smstxbuf_t) (rest : Queue) :
    (∃ head, smstxbuf_first_entry_waiting_for_tms_ack_started now (first :: rest) =
        head :: rest ∧
      head.waiting_for_tms_ack_started_at = now ∧
      head.msg = first.msg ∧ head.added_at = first.added_at ∧
      head.delay_before_send_sec = first.delay_before_send_sec ∧
      head.data_type = first.data_type ∧ head.call_type = first.call_type ∧
      head.dst_id = first.dst_id ∧ head.repeater = first.repeater ∧ head.ts = first.ts ∧
      head.db_id = first.db_id ∧ head.aprs_msg = first.aprs_msg ∧
      head.send_tries = first.send_tries ∧
      head.selective_ack_tries = first.selective_ack_tries) ∧
    (smstxbuf_first_entry_waiting_for_tms_ack_started now (first :: rest)).length =
      (first :: rest).length ∧
    smstxbuf_first_entry_waiting_for_tms_ack_started now [] = [] :=
  ⟨⟨{ first with waiting_for_tms_ack_started_at := now }, rfl, rfl, rfl, rfl, rfl, rfl, rfl,
    rfl, rfl, rfl, rfl, rfl, rfl, rfl⟩, rfl, rfl⟩

/-! ## Duplicates and the correlation data -/

/-- A submission that the duplicate test finds equal to the last entry changes nothing. -/
theorem add_duplicate_noop (c : Consts) (alloc_ok : Bool) (now : Int) (a : AddArgs)
    (q : Queue) (last : smstxbuf_t) (msg : cstring)
    (hlast : q.getLast? = some last) (hmsg : a.msg = some msg)
    (hdup : is_duplicate c last a msg = true) :
    smstxbuf_add c alloc_ok now a q = (q, []) := by
  unfold smstxbuf_add
  rw [hmsg]
  simp only [hlast, hdup, if_true]

/-- C19 (dedup ignores the correlation data). If the queue is not empty and a submission
agrees with the last entry in destination id, data type, repeater, timeslot, call type
and body, it is dropped whatever its db_id, its delay and its origin data are: the queue,
and with it the last entry with its own db_id, delay, added_at, send tries and origin
data, stays as it is and no call is made. This holds for every last entry, also for one
that is the first entry and has send tries. -/
theorem dedup_ignores_correlation (c : Consts) (alloc_ok : Bool) (now : Int) (a : AddArgs)
    (q : Queue) (last : smstxbuf_t) (msg : cstring)
    (hlast : q.getLast? = some last) (hmsg : a.msg = some msg)
    (hdst : last.dst_id = a.dstid) (htype : last.data_type = a.data_type)
    (hrep : last.repeater = a.repeater) (hts : last.ts = a.ts)
    (hcall : last.call_type = a.calltype)
    (hbody : (c_str last.msg).take c.DMRPACKET_MAX_FRAGMENTSIZE =
      (c_str msg).take c.DMRPACKET_MAX_FRAGMENTSIZE) :
    ∀ (db_id delay : Nat) (aprs : Option aprs_msg_t),
      smstxbuf_add c alloc_ok now
          { a with db_id := db_id, delay_before_send_sec := delay, aprs_msg := aprs } q =
        (q, []) ∧
      (smstxbuf_add c alloc_ok now
          { a with db_id := db_id, delay_before_send_sec := delay, aprs_msg := aprs }
          q).1.getLast? = some last := by
  intro db_id delay aprs
  have hadd := add_duplicate_noop c alloc_ok now
    { a with db_id := db_id, delay_before_send_sec := delay, aprs_msg := aprs } q last msg
    hlast hmsg (by simp [is_duplicate, strncmp_eq, hdst, htype, hrep, hts, hcall, hbody])
  exact ⟨hadd, by rw [hadd]; exact hlast⟩

/-- The message "hi" with the id 9, a delay of 30 seconds and origin data is dropped behind
the entry "hi" with the id 5 that is first, has been sent once and has no origin data. -/
theorem dedup_ignores_correlation_witness :
    smstxbuf_add sample_consts true 40
        sample_args_correlated
        [{ sample_entry with db_id := 5, send_tries := 1 }] =
      ([{ sample_entry with db_id := 5, send_tries := 1 }], []) :=
  (dedup_ignores_correlation sample_consts true 40 sample_args
    [{ sample_entry with db_id := 5, send_tries := 1 }]
    { sample_entry with db_id := 5, send_tries := 1 } [104, 105]
    rfl rfl rfl rfl rfl rfl rfl (by decide) 9 30 (some sample_aprs)).1

/-! ## The handlers on the empty queue -/

/-- C20 (handlers on the empty queue). On the empty queue
`smstxbuf_first_entry_sent_successfully` (for every repeater argument, NULL included),
`smstxbuf_first_entry_send_unsuccessful` and `smstxbuf_remove_first_entry` make no call of
the status store, the round-trip buffer or the ack emitter (no call at all) and leave the
queue empty, whatever the round-trip buffer would answer. -/
theorem handlers_on_empty_queue (env : Env) (repeater : Option repeater_t) :
    smstxbuf_first_entry_sent_successfully env repeater [] = ([], []) ∧
    smstxbuf_first_entry_sent_successfully env none [] = ([], []) ∧
    smstxbuf_first_entry_send_unsuccessful env [] = ([], []) ∧
    smstxbuf_remove_first_entry [] = [] :=
  ⟨rfl, rfl, rfl, rfl⟩

end Smstxbuf
